import Mathlib

/-!
Verification of the damage-to-part matching and cost-decision engine of the
crushAI repository (FlaskApp/app7.py and FlaskApp/cvmain/main.py), as a shallow
embedding in Lean 4.  Python floats are modelled by exact rationals, Python
ints by `Int`, fallible dictionary lookups by `Option`, and the PRNG used for
a missing `area_cm2` field by an explicit oracle argument.
-/

/-- Lowercasing of a single character covering ASCII and the Russian Cyrillic
range, matching what Python's `str.lower` does on the strings this program
handles. -/
def ruLowerChar (c : Char) : Char :=
  if 'A' ≤ c ∧ c ≤ 'Z' then Char.ofNat (c.toNat + 32)
  else if 'А' ≤ c ∧ c ≤ 'Я' then Char.ofNat (c.toNat + 32)
  else if c = 'Ё' then 'ё'
  else c

/-- Model of Python `s.lower()` for the strings used by the program. -/
def ruLower (s : String) : String :=
  String.mk (s.toList.map ruLowerChar)

/-- `startsWithL n h` is true when the character list `n` starts list `h`. -/
def startsWithL : List Char → List Char → Bool
  | [], _ => true
  | _ :: _, [] => false
  | n :: ns, h :: hs => n == h && startsWithL ns hs

/-- `occursIn n h` is true when `n` occurs contiguously inside `h`. -/
def occursIn (needle : List Char) : List Char → Bool
  | [] => startsWithL needle []
  | h :: hs => startsWithL needle (h :: hs) || occursIn needle hs

/-- Model of the Python substring test `needle in hay`. -/
def strOccurs (needle hay : String) : Bool :=
  occursIn needle.toList hay.toList

/-- An axis-aligned box `[x1, y1, x2, y2]` as passed around by
`cvmain/main.py`; coordinates are modelled as rationals. -/
structure Box where
  x1 : ℚ
  y1 : ℚ
  x2 : ℚ
  y2 : ℚ
deriving DecidableEq

/-- The guarded intersection-over-union of `cvmain/main.py`,
`calculate_iou` (lines 22-34): intersection width and height are clamped at 0
and the division only happens when the union denominator is positive. -/
def calculate_iou (box1 box2 : Box) : ℚ :=
  let x1 := max box1.x1 box2.x1
  let y1 := max box1.y1 box2.y1
  let x2 := min box1.x2 box2.x2
  let y2 := min box1.y2 box2.y2
  let intersection := max 0 (x2 - x1) * max 0 (y2 - y1)
  let area1 := (box1.x2 - box1.x1) * (box1.y2 - box1.y1)
  let area2 := (box2.x2 - box2.x1) * (box2.y2 - box2.y1)
  if area1 + area2 - intersection > 0 then
    intersection / (area1 + area2 - intersection)
  else 0

/-- One entry of the list returned by `find_damage_parts`. -/
structure MatchRec where
  damage_index : ℤ
  part_name : String
  iou : ℚ
  part_index : ℤ
deriving DecidableEq

/-- The running "best part" accumulator of the inner loop of
`find_damage_parts`. -/
structure BestAcc where
  iou : ℚ
  label : String
  idx : ℤ
deriving DecidableEq

/-- Inner loop of `find_damage_parts` (main.py lines 44-50): scan the parts,
updating the accumulator whenever a part's IoU strictly beats the current best
and also exceeds the threshold.  `i` is the index of the first listed part. -/
def bestPartAux (dbox : Box) (thr : ℚ) : List (Box × String) → ℤ → BestAcc → BestAcc
  | [], _, acc => acc
  | (pbox, plabel) :: rest, i, acc =>
    let iou := calculate_iou dbox pbox
    let acc' := if iou > acc.iou ∧ iou > thr then ⟨iou, plabel, i⟩ else acc
    bestPartAux dbox thr rest (i + 1) acc'

/-- `find_damage_parts` of `cvmain/main.py` (lines 36-59).  Parts are the
box/label pairs the Python caller keeps in two parallel lists. -/
def find_damage_parts (damage_boxes : List Box) (parts : List (Box × String))
    (iou_threshold : ℚ) : List MatchRec :=
  damage_boxes.enum.map fun p =>
    let acc := bestPartAux p.2 iou_threshold parts 0 ⟨0, "Не определено", -1⟩
    ⟨(p.1 : ℤ), acc.label, acc.iou, acc.idx⟩

/-- Default box used only to state indexed lookups with `List.getD`. -/
def defaultBox : Box := ⟨0, 0, 0, 0⟩

/-- Default match record used only to state indexed lookups. -/
def defaultMatch : MatchRec := ⟨0, "", 0, 0⟩

/-- The IoU of damage box `d` against the `j`-th part. -/
def iouAtD (d : Box) (parts : List (Box × String)) (j : ℕ) : ℚ :=
  calculate_iou d (parts.getD j (defaultBox, "")).1

/-- The label of the `j`-th part. -/
def labelAtD (parts : List (Box × String)) (j : ℕ) : String :=
  (parts.getD j (defaultBox, "")).2

/-- Python `int(x)` on a rational: truncation toward zero. -/
def pyInt (q : ℚ) : ℤ :=
  if 0 ≤ q then ⌊q⌋ else ⌈q⌉

/-- `math.ceil(x / 100) * 100`: round a rational amount up to the nearest
multiple of 100, as an integer. -/
def ceil100 (q : ℚ) : ℤ :=
  ⌈q / 100⌉ * 100

/-- `BASE_DENT_REPAIR_RATES` of app7.py (lines 41-62); the double dictionary
lookup is partial (a Python `KeyError` on an unknown severity), hence
`Option`. -/
def BASE_DENT_REPAIR_RATES (material severity : String) : Option ℤ :=
  if material = "сталь" then
    if severity = "легкий" then some 150
    else if severity = "средний" then some 250
    else if severity = "тяжелый" then some 400
    else none
  else if material = "алюминий" then
    if severity = "легкий" then some 200
    else if severity = "средний" then some 350
    else if severity = "тяжелый" then some 550
    else none
  else if material = "магниевый сплав" then
    if severity = "легкий" then some 300
    else if severity = "средний" then some 500
    else if severity = "тяжелый" then some 800
    else none
  else if material = "композит" then
    if severity = "легкий" then some 400
    else if severity = "средний" then some 700
    else if severity = "тяжелый" then some 1200
    else none
  else none

/-- `REPAIR_COST_MULTIPLIERS.get(damage_type, {}).get(severity, 1.0)` of
app7.py (lines 65-81, used at line 478): a total lookup defaulting to 1. -/
def REPAIR_COST_MULTIPLIERS (damage_type severity : String) : ℚ :=
  if damage_type = "вмятина" then
    if severity = "легкий" then 3/10
    else if severity = "средний" then 5/10
    else if severity = "тяжелый" then 8/10
    else 1
  else if damage_type = "царапина" then
    if severity = "легкий" then 2/10
    else if severity = "средний" then 4/10
    else if severity = "тяжелый" then 7/10
    else 1
  else if damage_type = "разрыв" then
    if severity = "легкий" then 6/10
    else if severity = "средний" then 9/10
    else if severity = "тяжелый" then 12/10
    else 1
  else 1

/-- `MATERIAL_COMPLEXITY_MULTIPLIERS.get(base_material, 1.0)` of app7.py
(lines 84-90, used at line 472). -/
def MATERIAL_COMPLEXITY_MULTIPLIERS (material : String) : ℚ :=
  if material = "сталь" then 1
  else if material = "алюминий" then 14/10
  else if material = "магниевый сплав" then 2
  else if material = "композит" then 25/10
  else if material = "пластик" then 8/10
  else 1

/-- app7.py line 93. -/
def MIN_DAMAGE_AREA : ℚ := 50

/-- app7.py line 94. -/
def MAX_DAMAGE_AREA : ℚ := 200

/-- Material normalisation of `calculate_dent_repair_cost`
(app7.py lines 443-456): case-insensitive substring tests in a fixed
priority order, defaulting to steel. -/
def baseMaterialOf (material : String) : String :=
  let m := ruLower material
  if strOccurs "алюмин" m then "алюминий"
  else if strOccurs "магн" m || strOccurs "сплав" m then "магниевый сплав"
  else if strOccurs "композит" m || strOccurs "карбон" m then "композит"
  else if strOccurs "пластик" m || strOccurs "полимер" m then "пластик"
  else "сталь"

/-- The `try` body of `calculate_dent_repair_cost` (app7.py lines 442-485).
The only failure point is the `BASE_DENT_REPAIR_RATES` lookup for a
non-plastic material, which raises `KeyError` on an unknown severity;
failure is `none`. -/
def calcDentCore (damage_area : ℚ) (material severity damage_type : String) :
    Option (ℤ × String) :=
  let base_material := baseMaterialOf material
  let rateOpt : Option ℤ :=
    if base_material = "пластик" then
      some (if damage_type = "вмятина" then
              (if severity = "тяжелый" then 200 else 100)
            else 150)
    else BASE_DENT_REPAIR_RATES base_material severity
  match rateOpt with
  | none => none
  | some base_rate =>
    let material_multiplier := MATERIAL_COMPLEXITY_MULTIPLIERS base_material
    let base_cost := damage_area * (base_rate : ℚ) * material_multiplier
    let damage_multiplier := REPAIR_COST_MULTIPLIERS damage_type severity
    let final_cost := base_cost * damage_multiplier
    some (ceil100 final_cost, base_material)

/-- `calculate_dent_repair_cost` of app7.py (lines 438-489): the `try` body,
with the `except` handler returning `(0, 'сталь')`. -/
def calculate_dent_repair_cost (damage_area : ℚ)
    (material severity damage_type : String) : ℤ × String :=
  (calcDentCore damage_area material severity damage_type).getD (0, "сталь")

/-- One row of the (brand, model)-filtered price table, as read from the
Excel collaborator: columns 'деталь', 'цена', 'материал детали',
'площадь детали', 'ссылка'. -/
structure PartRow where
  detail : String
  price : ℤ
  material : String
  declaredArea : String
  link : String
deriving DecidableEq

/-- One entry of `damage_analysis['damages']`: a Python dict read with
`.get` and per-field defaults, so every field is optional. -/
structure DamageIn where
  part : Option String
  damage_type : Option String
  severity : Option String
  area_cm2 : Option ℚ
  confidence : Option ℚ
  location : Option String
  depth : Option String
deriving DecidableEq

/-- One record appended to `damages_with_costs` by `calculate_repair_cost`
(app7.py lines 544-561 and 635-652). -/
structure CostedDamage where
  part : String
  area : String
  material : String
  detected_material : String
  damage_type : String
  severity : String
  confidence : ℚ
  location : String
  damage_area_cm2 : ℚ
  damage_depth : String
  repair_cost : ℤ
  replacement_cost : ℤ
  recommendation : String
  savings : ℤ
  link : String
  estimated : Bool
deriving DecidableEq

/-- The per-damage repair/replace decision block that `calculate_repair_cost`
repeats at app7.py lines 536-542 and 627-633: repair iff
`repair_cost < replacement_cost * 0.7`, with savings only on repair. -/
def recommendFor (repair_cost replacement_cost : ℤ) : String × ℤ :=
  if (repair_cost : ℚ) < (replacement_cost : ℚ) * (7/10) then
    ("ремонт", replacement_cost - repair_cost)
  else
    ("замена", 0)

/-- The price-record branch of the per-damage loop of `calculate_repair_cost`
(app7.py lines 515-561): the part was found in the table, so the table price
is used verbatim, the repair estimate comes from `calculate_dent_repair_cost`
on the part's declared material, and heavy damage on magnesium alloy or
composite caps the repair quote at the replacement price. -/
def costFoundBranch (damage : DamageIn) (damage_area : ℚ) (row : PartRow) :
    CostedDamage :=
  let damaged_part := damage.part.getD ""
  let damage_type := damage.damage_type.getD "вмятина"
  let severity := damage.severity.getD "средний"
  let replacement_cost := row.price
  let part_material := row.material
  let rcPair := calculate_dent_repair_cost damage_area part_material severity damage_type
  let detected_material := rcPair.2
  let repair_cost :=
    if severity = "тяжелый" ∧
        (detected_material = "магниевый сплав" ∨ detected_material = "композит") then
      min rcPair.1 replacement_cost
    else rcPair.1
  let link := if row.link = "" ∨ row.link = "nan" ∨ row.link = "None" then "" else row.link
  let rec0 := recommendFor repair_cost replacement_cost
  { part := damaged_part, area := row.declaredArea, material := part_material,
    detected_material := detected_material, damage_type := damage_type,
    severity := severity, confidence := damage.confidence.getD 0,
    location := damage.location.getD "", damage_area_cm2 := damage_area,
    damage_depth := damage.depth.getD "не определена",
    repair_cost := repair_cost, replacement_cost := replacement_cost,
    recommendation := rec0.1, savings := rec0.2, link := link,
    estimated := false }

/-- The part-category default material of the no-price-record branch
(app7.py lines 568-575). -/
def missingDefaultMaterial (lowerPart : String) : String :=
  if strOccurs "бампер" lowerPart || strOccurs "обвес" lowerPart ||
      strOccurs "решетка" lowerPart then "пластик"
  else if strOccurs "капот" lowerPart || strOccurs "дверь" lowerPart ||
      strOccurs "крыло" lowerPart || strOccurs "крыша" lowerPart then "сталь"
  else if strOccurs "фара" lowerPart || strOccurs "стекло" lowerPart ||
      strOccurs "оптика" lowerPart then "композит"
  else "сталь"

/-- `scratch_rates.get(severity, 150)` of the no-price-record branch
(app7.py lines 580-584 with the `.get` default at line 594). -/
def scratch_rates (severity : String) : ℤ :=
  if severity = "легкий" then 80
  else if severity = "средний" then 150
  else if severity = "тяжелый" then 300
  else 150

/-- `material_multipliers.get(default_material, 1.0)` of the no-price-record
branch (app7.py lines 587-592 with the `.get` default at line 595). -/
def scratch_material_multipliers (material : String) : ℚ :=
  if material = "пластик" then 1
  else if material = "сталь" then 12/10
  else if material = "алюминий" then 15/10
  else if material = "композит" then 2
  else 1

/-- The pre-rounding (repair, replacement) pair of the no-price-record branch
(app7.py lines 577-621): the scratch-specific rates and part-category
replacement heuristics, or the dent path with its `2.5 ×` estimate. -/
def missingCosts (damage : DamageIn) (damage_area : ℚ) : ℤ × ℤ :=
  let damaged_part := damage.part.getD ""
  let damage_type := damage.damage_type.getD "вмятина"
  let severity := damage.severity.getD "средний"
  let lowerPart := ruLower damaged_part
  let default_material := missingDefaultMaterial lowerPart
  if damage_type = "царапина" then
    let base_rate := scratch_rates severity
    let material_multiplier := scratch_material_multipliers default_material
    let repair_cost0 := pyInt (damage_area * (base_rate : ℚ) * material_multiplier)
    let replacement_cost0 : ℤ :=
      if strOccurs "бампер" lowerPart then 15000
      else if strOccurs "дверь" lowerPart then 25000
      else if strOccurs "крыло" lowerPart then 12000
      else if strOccurs "фара" lowerPart then 8000
      else max (repair_cost0 * 3) 10000
    (repair_cost0, replacement_cost0)
  else
    let rcPair := calculate_dent_repair_cost damage_area default_material severity damage_type
    (rcPair.1, pyInt ((rcPair.1 : ℚ) * (25/10)))

/-- The no-price-record branch of the per-damage loop
(app7.py lines 563-652): heuristic costs, both rounded up to the nearest
100, and the record flagged `estimated`. -/
def costMissingBranch (damage : DamageIn) (damage_area : ℚ) : CostedDamage :=
  let damaged_part := damage.part.getD ""
  let damage_type := damage.damage_type.getD "вмятина"
  let severity := damage.severity.getD "средний"
  let default_material := missingDefaultMaterial (ruLower damaged_part)
  let costs := missingCosts damage damage_area
  let repair_cost := ceil100 (costs.1 : ℚ)
  let replacement_cost := ceil100 (costs.2 : ℚ)
  let rec0 := recommendFor repair_cost replacement_cost
  { part := damaged_part, area := "не определена", material := "не определен",
    detected_material := default_material, damage_type := damage_type,
    severity := severity, confidence := damage.confidence.getD 0,
    location := damage.location.getD "", damage_area_cm2 := damage_area,
    damage_depth := damage.depth.getD "не определена",
    repair_cost := repair_cost, replacement_cost := replacement_cost,
    recommendation := rec0.1, savings := rec0.2, link := "",
    estimated := true }

/-- The body of the per-damage loop of `calculate_repair_cost`
(app7.py lines 503-654).  `carParts` is the (brand, model)-filtered price
table delivered by the external Excel collaborator `find_car_parts`;
`rdraw` is the PRNG value `random.randint(10, 100)` that Python uses as the
default when the damage record carries no `area_cm2` field.  The raw area is
clamped to `[MIN_DAMAGE_AREA, MAX_DAMAGE_AREA]` (line 510) before any cost
computation. -/
def costOneDamage (carParts : List PartRow) (rdraw : ℤ) (damage : DamageIn) :
    CostedDamage :=
  let damaged_part := damage.part.getD ""
  let damage_area0 : ℚ := damage.area_cm2.getD (rdraw : ℚ)
  let damage_area := max MIN_DAMAGE_AREA (min damage_area0 MAX_DAMAGE_AREA)
  match (carParts.filter (fun r => r.detail == damaged_part)).head? with
  | some row => costFoundBranch damage damage_area row
  | none => costMissingBranch damage damage_area

/-- `calculate_repair_cost` of app7.py (lines 491-660): the per-damage loop
over `damage_analysis['damages']`.  `rands i` supplies the PRNG draw used if
the `i`-th damage record lacks `area_cm2`. -/
def calculate_repair_cost (rands : ℕ → ℤ) (carParts : List PartRow)
    (damages : List DamageIn) : List CostedDamage :=
  damages.enum.map fun p => costOneDamage carParts (rands p.1) p.2

/-- `total_repair_cost` aggregation (app7.py line 2053). -/
def total_repair_cost (records : List CostedDamage) : ℤ :=
  (records.map (fun r => r.repair_cost)).sum

/-- `total_replacement_cost` aggregation (app7.py line 2054). -/
def total_replacement_cost (records : List CostedDamage) : ℤ :=
  (records.map (fun r => r.replacement_cost)).sum

/-- The aggregate decision computed by the result page,
app7.py line 1817: `totalRepairCost < totalReplacementCost ? 'ремонт' :
'замена'` — a strict less-than with no 0.7 margin. -/
def finalRecommendation (records : List CostedDamage) : String :=
  if total_repair_cost records < total_replacement_cost records then "ремонт"
  else "замена"

/-- Spec-side definition (for the refinement claim about §4.4 of the spec):
the base per-cm² rate of §4.4 step 2, keyed by material category, with the
plastic special case. Defined only over the three declared severities; the
last branch covers the composite row. -/
def specBaseRate (cat severity damage_type : String) : ℚ :=
  if cat = "пластик" then
    (if damage_type = "вмятина" then (if severity = "тяжелый" then 200 else 100)
     else 150)
  else if cat = "сталь" then
    (if severity = "легкий" then 150 else if severity = "средний" then 250 else 400)
  else if cat = "алюминий" then
    (if severity = "легкий" then 200 else if severity = "средний" then 350 else 550)
  else if cat = "магниевый сплав" then
    (if severity = "легкий" then 300 else if severity = "средний" then 500 else 800)
  else
    (if severity = "легкий" then 400 else if severity = "средний" then 700 else 1200)

/-- Spec-side: the `MATERIAL_COMPLEXITY` multiplier table of §4.4 step 3. -/
def specMaterialMult (cat : String) : ℚ :=
  if cat = "сталь" then 1
  else if cat = "алюминий" then 14/10
  else if cat = "магниевый сплав" then 2
  else if cat = "композит" then 25/10
  else 8/10

/-- Spec-side: the `DAMAGE_MULTIPLIER` table of §4.4 step 5, defaulting to 1
on unknown damage types. -/
def specDamageMult (damage_type severity : String) : ℚ :=
  if damage_type = "вмятина" then
    (if severity = "легкий" then 3/10 else if severity = "средний" then 5/10 else 8/10)
  else if damage_type = "царапина" then
    (if severity = "легкий" then 2/10 else if severity = "средний" then 4/10 else 7/10)
  else if damage_type = "разрыв" then
    (if severity = "легкий" then 6/10 else if severity = "средний" then 9/10 else 12/10)
  else 1

/-- Spec-side: §4.4 steps 1-6 WITHOUT the clamping sentence: classify the
material, pick the rate, multiply area × rate × material multiplier × damage
multiplier, round up to the nearest 100. -/
def spec44RepairCostNoClamp (area : ℚ) (material severity damage_type : String) :
    ℤ × String :=
  let cat := baseMaterialOf material
  let rate := specBaseRate cat severity damage_type
  let base_cost := area * rate * specMaterialMult cat
  (⌈base_cost * specDamageMult damage_type severity / 100⌉ * 100, cat)

/-- Spec-side: §4.4 as the claim literally states it, with the input area
first clamped to `[MIN_DAMAGE_AREA, MAX_DAMAGE_AREA]`. -/
def spec44RepairCostClamped (area : ℚ) (material severity damage_type : String) :
    ℤ × String :=
  spec44RepairCostNoClamp (max MIN_DAMAGE_AREA (min area MAX_DAMAGE_AREA))
    material severity damage_type

/-- The three severity strings the rate tables declare. -/
def validSeverity (s : String) : Prop :=
  s = "легкий" ∨ s = "средний" ∨ s = "тяжелый"

instance (s : String) : Decidable (validSeverity s) := by
  unfold validSeverity; infer_instance

theorem ceil100_emod (q : ℚ) : ceil100 q % 100 = 0 := by
  unfold ceil100
  exact Int.mul_emod_left _ _

theorem ceil100_nonneg {q : ℚ} (hq : 0 ≤ q) : 0 ≤ ceil100 q := by
  unfold ceil100
  have h : (0:ℤ) ≤ ⌈q / 100⌉ := Int.ceil_nonneg (by positivity)
  exact mul_nonneg h (by norm_num)

theorem ceil100_int_mul100 (k : ℤ) : ceil100 ((k * 100 : ℤ) : ℚ) = k * 100 := by
  unfold ceil100
  have h : ((k * 100 : ℤ) : ℚ) / 100 = (k : ℚ) := by push_cast; ring
  rw [h, Int.ceil_intCast]

theorem pyInt_nonneg {q : ℚ} (hq : 0 ≤ q) : 0 ≤ pyInt q := by
  unfold pyInt
  rw [if_pos hq]
  exact Int.floor_nonneg.mpr hq

theorem baseMaterialOf_mem (m : String) :
    baseMaterialOf m = "алюминий" ∨ baseMaterialOf m = "магниевый сплав" ∨
    baseMaterialOf m = "композит" ∨ baseMaterialOf m = "пластик" ∨
    baseMaterialOf m = "сталь" := by
  simp only [baseMaterialOf]
  split_ifs <;> simp

theorem BASE_DENT_REPAIR_RATES_pos {m s : String} {r : ℤ}
    (h : BASE_DENT_REPAIR_RATES m s = some r) : 0 < r := by
  unfold BASE_DENT_REPAIR_RATES at h
  split_ifs at h <;> simp_all <;> omega

theorem REPAIR_COST_MULTIPLIERS_pos (d s : String) :
    0 < REPAIR_COST_MULTIPLIERS d s := by
  unfold REPAIR_COST_MULTIPLIERS
  split_ifs <;> norm_num

theorem MATERIAL_COMPLEXITY_MULTIPLIERS_pos (m : String) :
    0 < MATERIAL_COMPLEXITY_MULTIPLIERS m := by
  unfold MATERIAL_COMPLEXITY_MULTIPLIERS
  split_ifs <;> norm_num

theorem calcDentCore_some {a : ℚ} {m s d : String} {c : ℤ} {mat : String}
    (h : calcDentCore a m s d = some (c, mat)) :
    mat = baseMaterialOf m ∧ ∃ q : ℚ, 0 < q ∧ c = ceil100 (a * q) := by
  rcases hro : (if baseMaterialOf m = "пластик" then
      some (if d = "вмятина" then (if s = "тяжелый" then (200:ℤ) else 100) else 150)
    else BASE_DENT_REPAIR_RATES (baseMaterialOf m) s) with _ | rate
  · simp only [calcDentCore, hro] at h
    exact Option.noConfusion h
  · simp only [calcDentCore, hro] at h
    obtain ⟨hc, hmat⟩ : ceil100 (a * (rate:ℚ) * MATERIAL_COMPLEXITY_MULTIPLIERS (baseMaterialOf m) *
        REPAIR_COST_MULTIPLIERS d s) = c ∧ baseMaterialOf m = mat := by
      simpa using h
    have hrate : 0 < rate := by
      split_ifs at hro
      all_goals first
        | exact BASE_DENT_REPAIR_RATES_pos hro
        | (injection hro with hh; omega)
    refine ⟨hmat.symm, (rate:ℚ) * MATERIAL_COMPLEXITY_MULTIPLIERS (baseMaterialOf m) *
        REPAIR_COST_MULTIPLIERS d s, ?_, ?_⟩
    · have h1 := MATERIAL_COMPLEXITY_MULTIPLIERS_pos (baseMaterialOf m)
      have h2 := REPAIR_COST_MULTIPLIERS_pos d s
      have h3 : (0:ℚ) < (rate:ℚ) := by exact_mod_cast hrate
      positivity
    · rw [← hc]
      congr 1
      ring

theorem calculate_dent_repair_cost_emod (a : ℚ) (m s d : String) :
    (calculate_dent_repair_cost a m s d).1 % 100 = 0 := by
  rcases h : calcDentCore a m s d with _ | ⟨c, mat⟩
  · simp [calculate_dent_repair_cost, h]
  · obtain ⟨-, q, -, rfl⟩ := calcDentCore_some h
    simp [calculate_dent_repair_cost, h, ceil100_emod]

theorem calculate_dent_repair_cost_nonneg {a : ℚ} (ha : 0 ≤ a) (m s d : String) :
    0 ≤ (calculate_dent_repair_cost a m s d).1 := by
  rcases h : calcDentCore a m s d with _ | ⟨c, mat⟩
  · simp [calculate_dent_repair_cost, h]
  · obtain ⟨-, q, hq, rfl⟩ := calcDentCore_some h
    simp only [calculate_dent_repair_cost, h, Option.getD_some]
    exact ceil100_nonneg (mul_nonneg ha hq.le)

theorem calculate_iou_nonneg (b1 b2 : Box) : 0 ≤ calculate_iou b1 b2 := by
  simp only [calculate_iou]
  split_ifs with h
  · exact div_nonneg (mul_nonneg (le_max_left 0 _) (le_max_left 0 _)) h.le
  · exact le_refl 0

theorem calculate_iou_le_one (b1 b2 : Box) : calculate_iou b1 b2 ≤ 1 := by
  simp only [calculate_iou]
  split_ifs with h
  · rw [div_le_one h]
    set w := min b1.x2 b2.x2 - max b1.x1 b2.x1 with hw
    set v := min b1.y2 b2.y2 - max b1.y1 b2.y1 with hv
    rcases le_or_lt w 0 with hw0 | hw0
    · rw [max_eq_left hw0] at h ⊢
      simp only [zero_mul] at h ⊢
      linarith
    rcases le_or_lt v 0 with hv0 | hv0
    · rw [max_eq_left hv0] at h ⊢
      simp only [mul_zero] at h ⊢
      linarith
    rw [max_eq_right hw0.le, max_eq_right hv0.le] at h ⊢
    have hwb1 : w ≤ b1.x2 - b1.x1 := by
      rw [hw]
      have := min_le_left b1.x2 b2.x2
      have := le_max_left b1.x1 b2.x1
      linarith
    have hwb2 : w ≤ b2.x2 - b2.x1 := by
      rw [hw]
      have := min_le_right b1.x2 b2.x2
      have := le_max_right b1.x1 b2.x1
      linarith
    have hvb1 : v ≤ b1.y2 - b1.y1 := by
      rw [hv]
      have := min_le_left b1.y2 b2.y2
      have := le_max_left b1.y1 b2.y1
      linarith
    have hvb2 : v ≤ b2.y2 - b2.y1 := by
      rw [hv]
      have := min_le_right b1.y2 b2.y2
      have := le_max_right b1.y1 b2.y1
      linarith
    have h1 : w * v ≤ (b1.x2 - b1.x1) * (b1.y2 - b1.y1) :=
      mul_le_mul hwb1 hvb1 hv0.le (by linarith)
    have h2 : w * v ≤ (b2.x2 - b2.x1) * (b2.y2 - b2.y1) :=
      mul_le_mul hwb2 hvb2 hv0.le (by linarith)
    linarith
  · norm_num

theorem iouAtD_cons_zero (d : Box) (pb : Box) (pl : String) (rest : List (Box × String)) :
    iouAtD d ((pb, pl) :: rest) 0 = calculate_iou d pb := rfl

theorem iouAtD_cons_succ (d : Box) (pb : Box) (pl : String) (rest : List (Box × String)) (j : ℕ) :
    iouAtD d ((pb, pl) :: rest) (j + 1) = iouAtD d rest j := rfl

theorem labelAtD_cons_zero (pb : Box) (pl : String) (rest : List (Box × String)) :
    labelAtD ((pb, pl) :: rest) 0 = pl := rfl

theorem labelAtD_cons_succ (pb : Box) (pl : String) (rest : List (Box × String)) (j : ℕ) :
    labelAtD ((pb, pl) :: rest) (j + 1) = labelAtD rest j := rfl

theorem bestPartAux_spec (dbox : Box) (thr : ℚ) (parts : List (Box × String)) :
    ∀ (i : ℤ) (acc : BestAcc),
      (bestPartAux dbox thr parts i acc = acc ∧
        ∀ j, j < parts.length →
          ¬ (acc.iou < iouAtD dbox parts j ∧ thr < iouAtD dbox parts j)) ∨
      (∃ j, j < parts.length ∧
        (bestPartAux dbox thr parts i acc).iou = iouAtD dbox parts j ∧
        (bestPartAux dbox thr parts i acc).label = labelAtD parts j ∧
        (bestPartAux dbox thr parts i acc).idx = i + j ∧
        thr < iouAtD dbox parts j ∧ acc.iou < iouAtD dbox parts j ∧
        (∀ k, k < parts.length →
          ¬ ((bestPartAux dbox thr parts i acc).iou < iouAtD dbox parts k ∧
             thr < iouAtD dbox parts k)) ∧
        (∀ k, k < j → iouAtD dbox parts k < iouAtD dbox parts j)) := by
  induction parts with
  | nil =>
    intro i acc
    left
    exact ⟨rfl, by simp⟩
  | cons p rest ih =>
    obtain ⟨pbox, plabel⟩ := p
    intro i acc
    by_cases hcond : acc.iou < calculate_iou dbox pbox ∧ thr < calculate_iou dbox pbox
    · have hstep : bestPartAux dbox thr ((pbox, plabel) :: rest) i acc =
          bestPartAux dbox thr rest (i + 1) ⟨calculate_iou dbox pbox, plabel, i⟩ := by
        simp only [bestPartAux, gt_iff_lt]
        rw [if_pos hcond]
      rcases ih (i + 1) ⟨calculate_iou dbox pbox, plabel, i⟩ with
        ⟨heq, hall⟩ | ⟨j, hj, hiou, hlab, hidx, hthr2, hacc2, hmax, hfirst⟩
      · -- the head updated and nothing in the tail beats it: pick j = 0
        right
        refine ⟨0, by simp, ?_, ?_, ?_, ?_, ?_, ?_, ?_⟩
        · rw [hstep, heq, iouAtD_cons_zero]
        · rw [hstep, heq, labelAtD_cons_zero]
        · rw [hstep, heq]; simp
        · rw [iouAtD_cons_zero]; exact hcond.2
        · rw [iouAtD_cons_zero]; exact hcond.1
        · intro k hk
          cases k with
          | zero =>
            rw [hstep, heq, iouAtD_cons_zero]
            intro hcontra
            exact lt_irrefl _ hcontra.1
          | succ k =>
            rw [hstep, heq, iouAtD_cons_succ]
            simp only [List.length_cons, Nat.succ_lt_succ_iff] at hk
            exact hall k hk
        · intro k hk
          omega
      · -- the head updated but some tail part beats it: pick j + 1
        right
        refine ⟨j + 1, by simpa using hj, ?_, ?_, ?_, ?_, ?_, ?_, ?_⟩
        · rw [hstep, iouAtD_cons_succ]; exact hiou
        · rw [hstep, labelAtD_cons_succ]; exact hlab
        · rw [hstep, hidx]; push_cast; ring
        · rw [iouAtD_cons_succ]; exact hthr2
        · rw [iouAtD_cons_succ]; exact lt_trans hcond.1 hacc2
        · intro k hk
          cases k with
          | zero =>
            rw [hstep, iouAtD_cons_zero]
            intro hcontra
            have h1 : calculate_iou dbox pbox < (bestPartAux dbox thr rest (i + 1)
                ⟨calculate_iou dbox pbox, plabel, i⟩).iou := by
              rw [hiou]; exact hacc2
            exact lt_asymm h1 hcontra.1
          | succ k =>
            rw [hstep, iouAtD_cons_succ]
            simp only [List.length_cons, Nat.succ_lt_succ_iff] at hk
            exact hmax k hk
        · intro k hk
          cases k with
          | zero =>
            rw [iouAtD_cons_zero, iouAtD_cons_succ]
            exact hacc2
          | succ k =>
            rw [iouAtD_cons_succ, iouAtD_cons_succ]
            exact hfirst k (by omega)
    · have hstep : bestPartAux dbox thr ((pbox, plabel) :: rest) i acc =
          bestPartAux dbox thr rest (i + 1) acc := by
        simp only [bestPartAux, gt_iff_lt]
        rw [if_neg hcond]
      rcases ih (i + 1) acc with
        ⟨heq, hall⟩ | ⟨j, hj, hiou, hlab, hidx, hthr2, hacc2, hmax, hfirst⟩
      · left
        refine ⟨by rw [hstep, heq], ?_⟩
        intro k hk
        cases k with
        | zero =>
          rw [iouAtD_cons_zero]
          exact hcond
        | succ k =>
          rw [iouAtD_cons_succ]
          simp only [List.length_cons, Nat.succ_lt_succ_iff] at hk
          exact hall k hk
      · right
        refine ⟨j + 1, by simpa using hj, ?_, ?_, ?_, ?_, ?_, ?_, ?_⟩
        · rw [hstep, iouAtD_cons_succ]; exact hiou
        · rw [hstep, labelAtD_cons_succ]; exact hlab
        · rw [hstep, hidx]; push_cast; ring
        · rw [iouAtD_cons_succ]; exact hthr2
        · rw [iouAtD_cons_succ]; exact hacc2
        · intro k hk
          cases k with
          | zero =>
            rw [hstep, iouAtD_cons_zero, hiou]
            intro hcontra
            rcases not_and_or.mp hcond with hc1 | hc2
            · exact absurd hcontra.1 (not_lt.mpr (lt_of_le_of_lt (not_lt.mp hc1) hacc2).le)
            · exact hc2 hcontra.2
          | succ k =>
            rw [hstep, iouAtD_cons_succ]
            simp only [List.length_cons, Nat.succ_lt_succ_iff] at hk
            exact hmax k hk
        · intro k hk
          cases k with
          | zero =>
            rw [iouAtD_cons_zero, iouAtD_cons_succ]
            rcases not_and_or.mp hcond with hc1 | hc2
            · exact lt_of_le_of_lt (not_lt.mp hc1) hacc2
            · exact lt_of_le_of_lt (not_lt.mp hc2) hthr2
          | succ k =>
            rw [iouAtD_cons_succ, iouAtD_cons_succ]
            exact hfirst k (by omega)

theorem find_damage_parts_length (D : List Box) (parts : List (Box × String)) (thr : ℚ) :
    (find_damage_parts D parts thr).length = D.length := by
  simp [find_damage_parts]

theorem find_damage_parts_getD (D : List Box) (parts : List (Box × String)) (thr : ℚ)
    {i : ℕ} (hi : i < D.length) :
    (find_damage_parts D parts thr).getD i defaultMatch =
      ⟨(i : ℤ),
       (bestPartAux (D.getD i defaultBox) thr parts 0 ⟨0, "Не определено", -1⟩).label,
       (bestPartAux (D.getD i defaultBox) thr parts 0 ⟨0, "Не определено", -1⟩).iou,
       (bestPartAux (D.getD i defaultBox) thr parts 0 ⟨0, "Не определено", -1⟩).idx⟩ := by
  have hlen : i < (find_damage_parts D parts thr).length := by
    rw [find_damage_parts_length]; exact hi
  rw [List.getD_eq_getElem _ _ hlen]
  unfold find_damage_parts
  rw [List.getElem_map, List.getElem_enum, List.getD_eq_getElem _ _ hi]
theorem mem_calculate_repair_cost {rands : ℕ → ℤ} {cp : List PartRow} {ds : List DamageIn}
    {rec : CostedDamage} (h : rec ∈ calculate_repair_cost rands cp ds) :
    ∃ x d, rec = costOneDamage cp x d := by
  unfold calculate_repair_cost at h
  obtain ⟨p, hp, rfl⟩ := List.mem_map.mp h
  exact ⟨rands p.1, p.2, rfl⟩

theorem costOneDamage_eq_found {cp : List PartRow} {d : DamageIn} {row : PartRow}
    (hrow : (cp.filter (fun r => r.detail == d.part.getD "")).head? = some row) (x : ℤ) :
    costOneDamage cp x d =
      costFoundBranch d (max MIN_DAMAGE_AREA (min (d.area_cm2.getD (x : ℚ)) MAX_DAMAGE_AREA)) row := by
  simp only [costOneDamage, hrow]

theorem costOneDamage_eq_missing {cp : List PartRow} {d : DamageIn}
    (hrow : (cp.filter (fun r => r.detail == d.part.getD "")).head? = none) (x : ℤ) :
    costOneDamage cp x d =
      costMissingBranch d (max MIN_DAMAGE_AREA (min (d.area_cm2.getD (x : ℚ)) MAX_DAMAGE_AREA)) := by
  simp only [costOneDamage, hrow]

theorem costOneDamage_rand_irrelevant {d : DamageIn} {a : ℚ} (ha : d.area_cm2 = some a)
    (cp : List PartRow) (x y : ℤ) :
    costOneDamage cp x d = costOneDamage cp y d := by
  simp only [costOneDamage, ha, Option.getD_some]

theorem costFoundBranch_recommend (d : DamageIn) (a : ℚ) (row : PartRow) :
    ((costFoundBranch d a row).recommendation, (costFoundBranch d a row).savings) =
      recommendFor (costFoundBranch d a row).repair_cost (costFoundBranch d a row).replacement_cost :=
  Prod.mk.eta

theorem costMissingBranch_recommend (d : DamageIn) (a : ℚ) :
    ((costMissingBranch d a).recommendation, (costMissingBranch d a).savings) =
      recommendFor (costMissingBranch d a).repair_cost (costMissingBranch d a).replacement_cost :=
  Prod.mk.eta

theorem costFoundBranch_estimated (d : DamageIn) (a : ℚ) (row : PartRow) :
    (costFoundBranch d a row).estimated = false := rfl

theorem costMissingBranch_estimated (d : DamageIn) (a : ℚ) :
    (costMissingBranch d a).estimated = true := rfl

theorem costFoundBranch_replacement (d : DamageIn) (a : ℚ) (row : PartRow) :
    (costFoundBranch d a row).replacement_cost = row.price := rfl

theorem costMissingBranch_repair (d : DamageIn) (a : ℚ) :
    (costMissingBranch d a).repair_cost = ceil100 ((missingCosts d a).1 : ℚ) := rfl

theorem costMissingBranch_replacement (d : DamageIn) (a : ℚ) :
    (costMissingBranch d a).replacement_cost = ceil100 ((missingCosts d a).2 : ℚ) := rfl

theorem costFoundBranch_repair (d : DamageIn) (a : ℚ) (row : PartRow) :
    (costFoundBranch d a row).repair_cost =
      (if d.severity.getD "средний" = "тяжелый" ∧
          ((calculate_dent_repair_cost a row.material (d.severity.getD "средний")
              (d.damage_type.getD "вмятина")).2 = "магниевый сплав" ∨
           (calculate_dent_repair_cost a row.material (d.severity.getD "средний")
              (d.damage_type.getD "вмятина")).2 = "композит") then
        min (calculate_dent_repair_cost a row.material (d.severity.getD "средний")
              (d.damage_type.getD "вмятина")).1 row.price
      else (calculate_dent_repair_cost a row.material (d.severity.getD "средний")
              (d.damage_type.getD "вмятина")).1) := rfl

theorem costOneDamage_area (cp : List PartRow) (x : ℤ) (d : DamageIn) :
    (costOneDamage cp x d).damage_area_cm2 =
      max MIN_DAMAGE_AREA (min (d.area_cm2.getD (x : ℚ)) MAX_DAMAGE_AREA) := by
  rcases hrow : (cp.filter (fun r => r.detail == d.part.getD "")).head? with _ | row
  · rw [costOneDamage_eq_missing hrow]; rfl
  · rw [costOneDamage_eq_found hrow]; rfl
theorem mcm_agrees (m : String) :
    MATERIAL_COMPLEXITY_MULTIPLIERS (baseMaterialOf m) = specMaterialMult (baseMaterialOf m) := by
  rcases baseMaterialOf_mem m with hm | hm | hm | hm | hm <;> rw [hm] <;> rfl

theorem rcm_agrees (d s : String) (hs : validSeverity s) :
    REPAIR_COST_MULTIPLIERS d s = specDamageMult d s := by
  rcases hs with rfl | rfl | rfl <;>
    unfold REPAIR_COST_MULTIPLIERS specDamageMult <;>
    split_ifs <;>
    first
      | rfl
      | exact absurd rfl (by assumption)

theorem rate_agrees (m s d : String) (hs : validSeverity s) :
    ∃ rate : ℤ,
      (if baseMaterialOf m = "пластик" then
          some (if d = "вмятина" then (if s = "тяжелый" then (200:ℤ) else 100) else 150)
        else BASE_DENT_REPAIR_RATES (baseMaterialOf m) s) = some rate ∧
      (rate : ℚ) = specBaseRate (baseMaterialOf m) s d := by
  rcases baseMaterialOf_mem m with hm | hm | hm | hm | hm <;> rw [hm]
  · rw [if_neg (by decide)]
    rcases hs with rfl | rfl | rfl
    · exact ⟨200, by decide, by rw [show specBaseRate "алюминий" "легкий" d = 200 from rfl]; norm_num⟩
    · exact ⟨350, by decide, by rw [show specBaseRate "алюминий" "средний" d = 350 from rfl]; norm_num⟩
    · exact ⟨550, by decide, by rw [show specBaseRate "алюминий" "тяжелый" d = 550 from rfl]; norm_num⟩
  · rw [if_neg (by decide)]
    rcases hs with rfl | rfl | rfl
    · exact ⟨300, by decide, by rw [show specBaseRate "магниевый сплав" "легкий" d = 300 from rfl]; norm_num⟩
    · exact ⟨500, by decide, by rw [show specBaseRate "магниевый сплав" "средний" d = 500 from rfl]; norm_num⟩
    · exact ⟨800, by decide, by rw [show specBaseRate "магниевый сплав" "тяжелый" d = 800 from rfl]; norm_num⟩
  · rw [if_neg (by decide)]
    rcases hs with rfl | rfl | rfl
    · exact ⟨400, by decide, by rw [show specBaseRate "композит" "легкий" d = 400 from rfl]; norm_num⟩
    · exact ⟨700, by decide, by rw [show specBaseRate "композит" "средний" d = 700 from rfl]; norm_num⟩
    · exact ⟨1200, by decide, by rw [show specBaseRate "композит" "тяжелый" d = 1200 from rfl]; norm_num⟩
  · rw [if_pos rfl]
    rcases hs with rfl | rfl | rfl
    · refine ⟨_, rfl, ?_⟩
      rw [show specBaseRate "пластик" "легкий" d = (if d = "вмятина" then (100:ℚ) else 150) from rfl,
        if_neg (by decide : ¬ (("легкий" : String) = "тяжелый"))]
      split_ifs <;> norm_num
    · refine ⟨_, rfl, ?_⟩
      rw [show specBaseRate "пластик" "средний" d = (if d = "вмятина" then (100:ℚ) else 150) from rfl,
        if_neg (by decide : ¬ (("средний" : String) = "тяжелый"))]
      split_ifs <;> norm_num
    · refine ⟨_, rfl, ?_⟩
      rw [show specBaseRate "пластик" "тяжелый" d = (if d = "вмятина" then (200:ℚ) else 150) from rfl,
        if_pos (rfl : ("тяжелый" : String) = "тяжелый")]
      split_ifs <;> norm_num
  · rw [if_neg (by decide)]
    rcases hs with rfl | rfl | rfl
    · exact ⟨150, by decide, by rw [show specBaseRate "сталь" "легкий" d = 150 from rfl]; norm_num⟩
    · exact ⟨250, by decide, by rw [show specBaseRate "сталь" "средний" d = 250 from rfl]; norm_num⟩
    · exact ⟨400, by decide, by rw [show specBaseRate "сталь" "тяжелый" d = 400 from rfl]; norm_num⟩

theorem spec44_agrees (area : ℚ) (m s d : String) (hs : validSeverity s) :
    calculate_dent_repair_cost area m s d = spec44RepairCostNoClamp area m s d := by
  obtain ⟨rate, hrate, hval⟩ := rate_agrees m s d hs
  have hcode : calculate_dent_repair_cost area m s d =
      (ceil100 (area * (rate : ℚ) * MATERIAL_COMPLEXITY_MULTIPLIERS (baseMaterialOf m) *
        REPAIR_COST_MULTIPLIERS d s), baseMaterialOf m) := by
    simp only [calculate_dent_repair_cost, calcDentCore, hrate, Option.getD_some]
  have hspec : spec44RepairCostNoClamp area m s d =
      (⌈area * specBaseRate (baseMaterialOf m) s d * specMaterialMult (baseMaterialOf m) *
        specDamageMult d s / 100⌉ * 100, baseMaterialOf m) := rfl
  rw [hcode, hspec, ceil100, mcm_agrees m, rcm_agrees d s hs, hval]
theorem ceil100_eq (q : ℚ) (k : ℤ) (h1 : ((k : ℚ) - 1) * 100 < q) (h2 : q ≤ (k : ℚ) * 100) :
    ceil100 q = k * 100 := by
  unfold ceil100
  have hk : ⌈q / 100⌉ = k := by
    rw [Int.ceil_eq_iff]
    constructor
    · rw [lt_div_iff₀ (by norm_num : (0:ℚ) < 100)]
      exact h1
    · rw [div_le_iff₀ (by norm_num : (0:ℚ) < 100)]
      exact h2
  rw [hk]

theorem ceil100_int_emod_zero {k : ℤ} (hk : k % 100 = 0) : ceil100 ((k : ℤ) : ℚ) = k := by
  obtain ⟨j, rfl⟩ : ∃ j, k = j * 100 := ⟨k / 100, by omega⟩
  exact ceil100_int_mul100 j

theorem eval_scenario1 :
    calculate_dent_repair_cost 45 "сталь" "средний" "вмятина" = (5700, "сталь") := by
  have h : calculate_dent_repair_cost 45 "сталь" "средний" "вмятина" =
      (ceil100 (45 * ((250:ℤ):ℚ) * 1 * (5/10)), "сталь") := rfl
  rw [h, @ceil100_eq (45 * ((250:ℤ):ℚ) * 1 * (5/10)) 57 (by norm_num) (by norm_num)]
  norm_num

theorem eval_scenario2 :
    calculate_dent_repair_cost 120 "алюминий" "тяжелый" "вмятина" = (74000, "алюминий") := by
  have h : calculate_dent_repair_cost 120 "алюминий" "тяжелый" "вмятина" =
      (ceil100 (120 * ((550:ℤ):ℚ) * (14/10) * (8/10)), "алюминий") := rfl
  rw [h, @ceil100_eq (120 * ((550:ℤ):ℚ) * (14/10) * (8/10)) 740 (by norm_num) (by norm_num)]
  norm_num

theorem eval_spec_clamped_45 :
    spec44RepairCostClamped 45 "сталь" "средний" "вмятина" = (6300, "сталь") := by
  have hclamp : max MIN_DAMAGE_AREA (min (45:ℚ) MAX_DAMAGE_AREA) = 50 := by
    rw [MIN_DAMAGE_AREA, MAX_DAMAGE_AREA]
    norm_num
  have h : spec44RepairCostClamped 45 "сталь" "средний" "вмятина" =
      spec44RepairCostNoClamp (max MIN_DAMAGE_AREA (min (45:ℚ) MAX_DAMAGE_AREA))
        "сталь" "средний" "вмятина" := rfl
  rw [h, hclamp]
  have h2 : spec44RepairCostNoClamp (50:ℚ) "сталь" "средний" "вмятина" =
      (⌈(50:ℚ) * 250 * 1 * (5/10) / 100⌉ * 100, "сталь") := rfl
  rw [h2]
  have h3 : (⌈(50:ℚ) * 250 * 1 * (5/10) / 100⌉ : ℤ) = 63 := by
    rw [Int.ceil_eq_iff]
    norm_num
  rw [h3]
  norm_num

/-- C1: counterexample.  The claim requires both that the repair-cost function
clamps its area input to `[MIN_DAMAGE_AREA, MAX_DAMAGE_AREA]` before computing
(§4.4) and that it returns 5700 for `area = 45`; with `MIN_DAMAGE_AREA = 50`
the clamped §4.4 algorithm yields 6300 at `area = 45`, while the code's
`calculate_dent_repair_cost` (which does not clamp) yields 5700, so the claim
as stated is false at this input. -/
theorem c1_counterexample :
    calculate_dent_repair_cost 45 "сталь" "средний" "вмятина" = (5700, "сталь") ∧
    spec44RepairCostClamped 45 "сталь" "средний" "вмятина" = (6300, "сталь") ∧
    calculate_dent_repair_cost 45 "сталь" "средний" "вмятина" ≠
      spec44RepairCostClamped 45 "сталь" "средний" "вмятина" := by
  refine ⟨eval_scenario1, eval_spec_clamped_45, ?_⟩
  rw [eval_scenario1, eval_spec_clamped_45]
  intro h
  exact absurd (congrArg Prod.fst h) (by decide)

/-- C1 (amended): `calculate_dent_repair_cost` follows the §4.4 algorithm
(classification, rate tables incl. the plastic special case, material and
damage multipliers, round-up to the nearest 100) for every declared severity,
but performs NO area clamping itself; the clamp to
`[MIN_DAMAGE_AREA, MAX_DAMAGE_AREA]` is applied by the caller
`calculate_repair_cost` before invocation.  On the unclamped function the
spec's scenarios hold: area 45 steel medium dent → (5700, steel) and area 120
aluminium heavy dent → (74000, aluminium). -/
theorem c1_amended (area : ℚ) (m s d : String) (hs : validSeverity s) :
    calculate_dent_repair_cost area m s d = spec44RepairCostNoClamp area m s d ∧
    calculate_dent_repair_cost 45 "сталь" "средний" "вмятина" = (5700, "сталь") ∧
    calculate_dent_repair_cost 120 "алюминий" "тяжелый" "вмятина" = (74000, "алюминий") ∧
    ∀ (cp : List PartRow) (x : ℤ) (dmg : DamageIn),
      (costOneDamage cp x dmg).damage_area_cm2 =
        max MIN_DAMAGE_AREA (min (dmg.area_cm2.getD (x : ℚ)) MAX_DAMAGE_AREA) :=
  ⟨spec44_agrees area m s d hs, eval_scenario1, eval_scenario2,
    fun cp x dmg => costOneDamage_area cp x dmg⟩

/-- C1: witness for the amended theorem at a concrete valid severity. -/
theorem c1_witness :
    validSeverity "средний" ∧
    calculate_dent_repair_cost 45 "сталь" "средний" "вмятина" = (5700, "сталь") :=
  ⟨by decide, (c1_amended 45 "сталь" "средний" "вмятина" (by decide)).2.1⟩

theorem BASE_DENT_REPAIR_RATES_none {s : String} (hs : ¬ validSeverity s) (mat : String) :
    BASE_DENT_REPAIR_RATES mat s = none := by
  unfold validSeverity at hs
  unfold BASE_DENT_REPAIR_RATES
  split_ifs <;>
    first
      | rfl
      | (exfalso; exact hs (by tauto))

theorem REPAIR_COST_MULTIPLIERS_default {d s : String} (hs : ¬ validSeverity s) :
    REPAIR_COST_MULTIPLIERS d s = 1 := by
  unfold validSeverity at hs
  unfold REPAIR_COST_MULTIPLIERS
  split_ifs <;>
    first
      | rfl
      | (exfalso; exact hs (by tauto))

/-- C6: counterexample.  For the unrecognized severity string "глубокий" on
steel, the code does not fall back to a medium-equivalent default: the
`KeyError` handler returns a degenerate zero quote `(0, "сталь")`, whereas the
medium default would price the same dent at 12500. -/
theorem c6_counterexample :
    calculate_dent_repair_cost 100 "сталь" "глубокий" "вмятина" = (0, "сталь") ∧
    calculate_dent_repair_cost 100 "сталь" "средний" "вмятина" = (12500, "сталь") ∧
    (calculate_dent_repair_cost 100 "сталь" "глубокий" "вмятина").1 ≠
      (calculate_dent_repair_cost 100 "сталь" "средний" "вмятина").1 := by
  have h1 : calculate_dent_repair_cost 100 "сталь" "глубокий" "вмятина" = (0, "сталь") := rfl
  have h2 : calculate_dent_repair_cost 100 "сталь" "средний" "вмятина" =
      (ceil100 (100 * ((250:ℤ):ℚ) * 1 * (5/10)), "сталь") := rfl
  have h3 : ceil100 (100 * ((250:ℤ):ℚ) * 1 * (5/10)) = 12500 := by
    rw [@ceil100_eq (100 * ((250:ℤ):ℚ) * 1 * (5/10)) 125 (by norm_num) (by norm_num)]
    norm_num
  refine ⟨h1, ?_, ?_⟩
  · rw [h2, h3]
  · rw [h1, h2, h3]
    decide

/-- C6 (amended): an unrecognized material string classifies as steel and an
unrecognized damage-type string gets damage multiplier 1, as the claim says;
an unrecognized severity string also gets damage multiplier 1 and, on
plastic, the non-heavy base rate — but on every non-plastic material it makes
the base-rate lookup fail, and the function returns the degenerate
`(0, "сталь")` instead of a medium-equivalent default. -/
theorem c6_amended (area : ℚ) (m s d : String) :
    ((strOccurs "алюмин" (ruLower m) = false ∧ strOccurs "магн" (ruLower m) = false ∧
      strOccurs "сплав" (ruLower m) = false ∧ strOccurs "композит" (ruLower m) = false ∧
      strOccurs "карбон" (ruLower m) = false ∧ strOccurs "пластик" (ruLower m) = false ∧
      strOccurs "полимер" (ruLower m) = false) →
      baseMaterialOf m = "сталь") ∧
    ((d ≠ "вмятина" ∧ d ≠ "царапина" ∧ d ≠ "разрыв") → REPAIR_COST_MULTIPLIERS d s = 1) ∧
    (¬ validSeverity s → REPAIR_COST_MULTIPLIERS d s = 1) ∧
    (¬ validSeverity s → baseMaterialOf m ≠ "пластик" →
      calculate_dent_repair_cost area m s d = (0, "сталь")) ∧
    (¬ validSeverity s → baseMaterialOf m = "пластик" →
      calculate_dent_repair_cost area m s d =
        (ceil100 (area * (↑(if d = "вмятина" then (100:ℤ) else 150) : ℚ) * (8/10) *
          REPAIR_COST_MULTIPLIERS d s), "пластик")) := by
  refine ⟨?_, ?_, ?_, ?_, ?_⟩
  · intro ⟨h1, h2, h3, h4, h5, h6, h7⟩
    simp [baseMaterialOf, h1, h2, h3, h4, h5, h6, h7]
  · intro ⟨h1, h2, h3⟩
    unfold REPAIR_COST_MULTIPLIERS
    rw [if_neg h1, if_neg h2, if_neg h3]
  · intro hs
    exact REPAIR_COST_MULTIPLIERS_default hs
  · intro hs hp
    have hrate : (if baseMaterialOf m = "пластик" then
        some (if d = "вмятина" then (if s = "тяжелый" then (200:ℤ) else 100) else 150)
      else BASE_DENT_REPAIR_RATES (baseMaterialOf m) s) = none := by
      rw [if_neg hp, BASE_DENT_REPAIR_RATES_none hs]
    simp only [calculate_dent_repair_cost, calcDentCore, hrate, Option.getD_none]
  · intro hs hp
    have hsev : s ≠ "тяжелый" := by
      intro h
      exact hs (Or.inr (Or.inr h))
    have hrate : (if baseMaterialOf m = "пластик" then
        some (if d = "вмятина" then (if s = "тяжелый" then (200:ℤ) else 100) else 150)
      else BASE_DENT_REPAIR_RATES (baseMaterialOf m) s) =
        some (if d = "вмятина" then (100:ℤ) else 150) := by
      rw [if_pos hp, if_neg hsev]
    have hstep : calculate_dent_repair_cost area m s d =
        (ceil100 (area * (↑(if d = "вмятина" then (100:ℤ) else 150) : ℚ) *
          MATERIAL_COMPLEXITY_MULTIPLIERS (baseMaterialOf m) * REPAIR_COST_MULTIPLIERS d s),
          baseMaterialOf m) := by
      simp only [calculate_dent_repair_cost, calcDentCore, hrate, Option.getD_some]
    rw [hstep, hp]
    rw [show MATERIAL_COMPLEXITY_MULTIPLIERS "пластик" = 8/10 from rfl]

/-- C6: witness instantiating the amended theorem at an unknown severity and
an unknown damage type on steel. -/
theorem c6_witness :
    (("скол" : String) ≠ "вмятина" ∧ ("скол" : String) ≠ "царапина" ∧
      ("скол" : String) ≠ "разрыв") ∧
    ¬ validSeverity "глубокий" ∧
    baseMaterialOf "сталь" ≠ "пластик" ∧
    REPAIR_COST_MULTIPLIERS "скол" "средний" = 1 ∧
    calculate_dent_repair_cost 60 "сталь" "глубокий" "скол" = (0, "сталь") := by
  refine ⟨by decide, by decide, by decide, ?_, ?_⟩
  · exact (c6_amended 60 "сталь" "средний" "скол").2.1 (by decide)
  · exact (c6_amended 60 "сталь" "глубокий" "скол").2.2.2.1 (by decide) (by decide)

theorem calcDentCore_isSome {s : String} (m : String) (area : ℚ) (d : String)
    (h : validSeverity s ∨ baseMaterialOf m = "пластик") :
    (calcDentCore area m s d).isSome = true := by
  have hrate : ∃ r : ℤ, (if baseMaterialOf m = "пластик" then
      some (if d = "вмятина" then (if s = "тяжелый" then (200:ℤ) else 100) else 150)
    else BASE_DENT_REPAIR_RATES (baseMaterialOf m) s) = some r := by
    rcases h with hs | hp
    · rcases baseMaterialOf_mem m with hm | hm | hm | hm | hm <;> rw [hm]
      · rw [if_neg (by decide)]
        rcases hs with rfl | rfl | rfl
        · exact ⟨200, by decide⟩
        · exact ⟨350, by decide⟩
        · exact ⟨550, by decide⟩
      · rw [if_neg (by decide)]
        rcases hs with rfl | rfl | rfl
        · exact ⟨300, by decide⟩
        · exact ⟨500, by decide⟩
        · exact ⟨800, by decide⟩
      · rw [if_neg (by decide)]
        rcases hs with rfl | rfl | rfl
        · exact ⟨400, by decide⟩
        · exact ⟨700, by decide⟩
        · exact ⟨1200, by decide⟩
      · exact ⟨_, by rw [if_pos rfl]⟩
      · rw [if_neg (by decide)]
        rcases hs with rfl | rfl | rfl
        · exact ⟨150, by decide⟩
        · exact ⟨250, by decide⟩
        · exact ⟨400, by decide⟩
    · exact ⟨_, by rw [if_pos hp]⟩
  obtain ⟨r, hr⟩ := hrate
  simp only [calcDentCore, hr, Option.isSome_some]

/-- C10: `calculate_dent_repair_cost` is total at its public interface: its
`try` body (`calcDentCore`) succeeds whenever the severity is one of the three
declared ones or the classified material is plastic; when the severity is
unrecognized and the material is not plastic, the internal base-rate lookup
fails and the function returns exactly the silent zero quote `(0, "сталь")`
of the `except` handler; and the function is by construction the `try` body
with that handler as fallback. -/
theorem c10_total_zero_fallback (area : ℚ) (m s d : String) :
    (validSeverity s ∨ baseMaterialOf m = "пластик" →
      (calcDentCore area m s d).isSome = true) ∧
    (¬ validSeverity s → baseMaterialOf m ≠ "пластик" →
      calcDentCore area m s d = none ∧
      calculate_dent_repair_cost area m s d = (0, "сталь")) ∧
    calculate_dent_repair_cost area m s d = (calcDentCore area m s d).getD (0, "сталь") := by
  refine ⟨fun h => calcDentCore_isSome m area d h, fun hs hp => ?_, rfl⟩
  have hrate : (if baseMaterialOf m = "пластик" then
      some (if d = "вмятина" then (if s = "тяжелый" then (200:ℤ) else 100) else 150)
    else BASE_DENT_REPAIR_RATES (baseMaterialOf m) s) = none := by
    rw [if_neg hp, BASE_DENT_REPAIR_RATES_none hs]
  constructor
  · simp only [calcDentCore, hrate]
  · simp only [calculate_dent_repair_cost, calcDentCore, hrate, Option.getD_none]

/-- C10: witness at a valid severity (total, computation succeeds) and at an
unknown severity on steel (silent zero quote). -/
theorem c10_witness :
    (validSeverity "средний" ∨ baseMaterialOf "сталь" = "пластик") ∧
    (calcDentCore 60 "сталь" "средний" "вмятина").isSome = true ∧
    ¬ validSeverity "глубокий2" ∧
    calculate_dent_repair_cost 60 "сталь" "глубокий2" "вмятина" = (0, "сталь") := by
  refine ⟨Or.inl (by decide), ?_, by decide, ?_⟩
  · exact (c10_total_zero_fallback 60 "сталь" "средний" "вмятина").1 (Or.inl (by decide))
  · exact ((c10_total_zero_fallback 60 "сталь" "глубокий2" "вмятина").2.1 (by decide) (by decide)).2

theorem calculate_iou_zero_of_width {b1 b2 : Box}
    (h : min b1.x2 b2.x2 - max b1.x1 b2.x1 ≤ 0) : calculate_iou b1 b2 = 0 := by
  simp only [calculate_iou, max_eq_left h, zero_mul]
  split_ifs with h2
  · exact zero_div _
  · rfl

theorem calculate_iou_zero_of_height {b1 b2 : Box}
    (h : min b1.y2 b2.y2 - max b1.y1 b2.y1 ≤ 0) : calculate_iou b1 b2 = 0 := by
  simp only [calculate_iou, max_eq_left h, mul_zero]
  split_ifs with h2
  · exact zero_div _
  · rfl

/-- C7: `calculate_iou` is safe on every pair of boxes: the division is
guarded (a non-positive union denominator yields 0), disjoint boxes yield 0,
and a malformed box with `x2 < x1` (in either argument, and likewise on the
y axis) yields 0; the result is always within `[0, 1]`. -/
theorem c7_iou_safety (b1 b2 : Box) :
    ((b1.x2 - b1.x1) * (b1.y2 - b1.y1) + (b2.x2 - b2.x1) * (b2.y2 - b2.y1) -
        max 0 (min b1.x2 b2.x2 - max b1.x1 b2.x1) * max 0 (min b1.y2 b2.y2 - max b1.y1 b2.y1) ≤ 0 →
      calculate_iou b1 b2 = 0) ∧
    (b1.x2 ≤ b2.x1 ∨ b2.x2 ≤ b1.x1 ∨ b1.y2 ≤ b2.y1 ∨ b2.y2 ≤ b1.y1 →
      calculate_iou b1 b2 = 0) ∧
    (b1.x2 < b1.x1 ∨ b2.x2 < b2.x1 ∨ b1.y2 < b1.y1 ∨ b2.y2 < b2.y1 →
      calculate_iou b1 b2 = 0) ∧
    0 ≤ calculate_iou b1 b2 ∧ calculate_iou b1 b2 ≤ 1 := by
  refine ⟨?_, ?_, ?_, calculate_iou_nonneg b1 b2, calculate_iou_le_one b1 b2⟩
  · intro h
    simp only [calculate_iou]
    rw [if_neg (not_lt.mpr h)]
  · intro h
    rcases h with h | h | h | h
    · refine calculate_iou_zero_of_width ?_
      have h1 := min_le_left b1.x2 b2.x2
      have h2 := le_max_right b1.x1 b2.x1
      linarith
    · refine calculate_iou_zero_of_width ?_
      have h1 := min_le_right b1.x2 b2.x2
      have h2 := le_max_left b1.x1 b2.x1
      linarith
    · refine calculate_iou_zero_of_height ?_
      have h1 := min_le_left b1.y2 b2.y2
      have h2 := le_max_right b1.y1 b2.y1
      linarith
    · refine calculate_iou_zero_of_height ?_
      have h1 := min_le_right b1.y2 b2.y2
      have h2 := le_max_left b1.y1 b2.y1
      linarith
  · intro h
    rcases h with h | h | h | h
    · refine calculate_iou_zero_of_width ?_
      have h1 := min_le_left b1.x2 b2.x2
      have h2 := le_max_left b1.x1 b2.x1
      linarith
    · refine calculate_iou_zero_of_width ?_
      have h1 := min_le_right b1.x2 b2.x2
      have h2 := le_max_right b1.x1 b2.x1
      linarith
    · refine calculate_iou_zero_of_height ?_
      have h1 := min_le_left b1.y2 b2.y2
      have h2 := le_max_left b1.y1 b2.y1
      linarith
    · refine calculate_iou_zero_of_height ?_
      have h1 := min_le_right b1.y2 b2.y2
      have h2 := le_max_right b1.y1 b2.y1
      linarith

/-- C7: witness at the spec's disjoint example `a = (0,0,10,10)`,
`b = (20,20,30,30)`, and at a malformed box with `x2 < x1`. -/
theorem c7_witness :
    calculate_iou (Box.mk 0 0 10 10) (Box.mk 20 20 30 30) = 0 ∧
    calculate_iou (Box.mk 10 0 0 10) (Box.mk 0 0 20 20) = 0 ∧
    0 ≤ calculate_iou (Box.mk 0 0 10 10) (Box.mk 20 20 30 30) := by
  refine ⟨?_, ?_, ?_⟩
  · exact (c7_iou_safety (Box.mk 0 0 10 10) (Box.mk 20 20 30 30)).2.1 (Or.inl (by norm_num))
  · exact (c7_iou_safety (Box.mk 10 0 0 10) (Box.mk 0 0 20 20)).2.2.1 (Or.inl (by norm_num))
  · exact (c7_iou_safety (Box.mk 0 0 10 10) (Box.mk 20 20 30 30)).2.2.2.1

/-- C2: the matcher returns exactly one match per damage, in damage input
order; each match either picks a part whose IoU exceeds the threshold, is
greatest among all parts, and is strictly greater than every earlier part's
IoU (so ties keep the first-encountered part), or — when no part's IoU
exceeds the threshold — carries the unknown sentinel "Не определено" with
iou 0 (and part index -1). -/
theorem c2_matcher_spec (D : List Box) (parts : List (Box × String)) (thr : ℚ)
    (hthr : 0 ≤ thr) :
    (find_damage_parts D parts thr).length = D.length ∧
    ∀ i, i < D.length →
      ((find_damage_parts D parts thr).getD i defaultMatch).damage_index = (i : ℤ) ∧
      (((∀ j, j < parts.length → ¬ thr < iouAtD (D.getD i defaultBox) parts j) ∧
        ((find_damage_parts D parts thr).getD i defaultMatch).part_name = "Не определено" ∧
        ((find_damage_parts D parts thr).getD i defaultMatch).iou = 0 ∧
        ((find_damage_parts D parts thr).getD i defaultMatch).part_index = -1) ∨
       (∃ j, j < parts.length ∧
        ((find_damage_parts D parts thr).getD i defaultMatch).part_name = labelAtD parts j ∧
        ((find_damage_parts D parts thr).getD i defaultMatch).part_index = (j : ℤ) ∧
        ((find_damage_parts D parts thr).getD i defaultMatch).iou =
          iouAtD (D.getD i defaultBox) parts j ∧
        thr < iouAtD (D.getD i defaultBox) parts j ∧
        (∀ k, k < parts.length →
          iouAtD (D.getD i defaultBox) parts k ≤ iouAtD (D.getD i defaultBox) parts j) ∧
        (∀ k, k < j →
          iouAtD (D.getD i defaultBox) parts k < iouAtD (D.getD i defaultBox) parts j))) := by
  refine ⟨find_damage_parts_length D parts thr, ?_⟩
  intro i hi
  rw [find_damage_parts_getD D parts thr hi]
  refine ⟨rfl, ?_⟩
  rcases bestPartAux_spec (D.getD i defaultBox) thr parts 0 ⟨0, "Не определено", -1⟩ with
    ⟨heq, hall⟩ | ⟨j, hj, hiou, hlab, hidx, hthr2, hacc2, hmax, hfirst⟩
  · left
    rw [heq]
    refine ⟨?_, rfl, rfl, rfl⟩
    intro j hjlen hlt
    exact hall j hjlen ⟨lt_of_le_of_lt hthr hlt, hlt⟩
  · right
    refine ⟨j, hj, hlab, by rw [hidx]; ring, hiou, hthr2, ?_, ?_⟩
    · intro k hk
      by_contra hcon
      push_neg at hcon
      rw [← hiou] at hcon
      exact hmax k hk ⟨hcon, lt_trans (lt_of_lt_of_le hthr2 (le_of_eq hiou.symm)) hcon⟩
    · intro k hk
      exact hfirst k hk

/-- C2: witness at one damage box and two parts, with the default
threshold 0.1. -/
theorem c2_witness :
    0 ≤ (1/10 : ℚ) ∧
    (find_damage_parts [Box.mk 0 0 10 10]
      [(Box.mk 0 0 4 10, "A"), (Box.mk 0 0 10 10, "B")] (1/10)).length = 1 := by
  have h := c2_matcher_spec [Box.mk 0 0 10 10]
    [(Box.mk 0 0 4 10, "A"), (Box.mk 0 0 10 10, "B")] (1/10) (by norm_num)
  exact ⟨by norm_num, h.1⟩

theorem iou_self_box_eval : calculate_iou (Box.mk 0 0 10 10) (Box.mk 0 0 10 10) = 1 := by
  norm_num [calculate_iou, max_def, min_def]

/-- C8: counterexample.  The invariant "part_name = "Не определено" implies
iou = 0" fails when an input part is itself labelled with the sentinel
string: a damage box coinciding with a part labelled "Не определено" matches
it with iou 1 ≠ 0. -/
theorem c8_counterexample :
    ((find_damage_parts [Box.mk 0 0 10 10] [(Box.mk 0 0 10 10, "Не определено")]
        (1/10)).getD 0 defaultMatch).part_name = "Не определено" ∧
    ((find_damage_parts [Box.mk 0 0 10 10] [(Box.mk 0 0 10 10, "Не определено")]
        (1/10)).getD 0 defaultMatch).iou = 1 ∧
    ¬ (((find_damage_parts [Box.mk 0 0 10 10] [(Box.mk 0 0 10 10, "Не определено")]
        (1/10)).getD 0 defaultMatch).iou = 0) := by
  have hb : bestPartAux (Box.mk 0 0 10 10) (1/10) [(Box.mk 0 0 10 10, "Не определено")] 0
      ⟨0, "Не определено", -1⟩ = ⟨1, "Не определено", 0⟩ := by
    simp only [bestPartAux, iou_self_box_eval]
    rw [if_pos (by constructor <;> norm_num)]
  rw [find_damage_parts_getD _ _ _ (by norm_num)]
  rw [show (List.getD [Box.mk 0 0 10 10] 0 defaultBox) = Box.mk 0 0 10 10 from rfl]
  rw [hb]
  exact ⟨rfl, rfl, by norm_num⟩

/-- C8 (amended): every match produced by the matcher has iou within [0, 1];
and provided no input part label equals the sentinel "Не определено", a match
whose part name is the sentinel has iou 0. -/
theorem c8_amended (D : List Box) (parts : List (Box × String)) (thr : ℚ)
    (_hthr : 0 ≤ thr) (m : MatchRec) (hm : m ∈ find_damage_parts D parts thr) :
    0 ≤ m.iou ∧ m.iou ≤ 1 ∧
    ((∀ pr ∈ parts, pr.2 ≠ "Не определено") →
      m.part_name = "Не определено" → m.iou = 0) := by
  unfold find_damage_parts at hm
  obtain ⟨p, hp, rfl⟩ := List.mem_map.mp hm
  rcases bestPartAux_spec p.2 thr parts 0 ⟨0, "Не определено", -1⟩ with
    ⟨heq, -⟩ | ⟨j, hj, hiou, hlab, -, hthr2, -, -, -⟩
  · refine ⟨?_, ?_, ?_⟩
    · show 0 ≤ (bestPartAux p.2 thr parts 0 ⟨0, "Не определено", -1⟩).iou
      rw [heq]
    · show (bestPartAux p.2 thr parts 0 ⟨0, "Не определено", -1⟩).iou ≤ 1
      rw [heq]
      norm_num
    · intro _ _
      show (bestPartAux p.2 thr parts 0 ⟨0, "Не определено", -1⟩).iou = 0
      rw [heq]
  · refine ⟨?_, ?_, ?_⟩
    · show 0 ≤ (bestPartAux p.2 thr parts 0 ⟨0, "Не определено", -1⟩).iou
      rw [hiou]
      exact calculate_iou_nonneg _ _
    · show (bestPartAux p.2 thr parts 0 ⟨0, "Не определено", -1⟩).iou ≤ 1
      rw [hiou]
      exact calculate_iou_le_one _ _
    · intro hall hname
      exfalso
      have hname2 : (bestPartAux p.2 thr parts 0 ⟨0, "Не определено", -1⟩).label =
          "Не определено" := hname
      have hmem : parts.getD j (defaultBox, "") ∈ parts := by
        rw [List.getD_eq_getElem _ _ hj]
        exact List.getElem_mem _
      have hne := hall _ hmem
      exact hne (by rw [← hname2, hlab]; rfl)

/-- C8: witness with a single damage and no parts, default threshold 0.1. -/
theorem c8_witness :
    0 ≤ (1/10 : ℚ) ∧
    0 ≤ (MatchRec.mk 0 "Не определено" 0 (-1)).iou ∧
    (MatchRec.mk 0 "Не определено" 0 (-1)).iou ≤ 1 := by
  have hmem : (MatchRec.mk 0 "Не определено" 0 (-1)) ∈
      find_damage_parts [Box.mk 0 0 10 10] [] (1/10) := by
    rw [show find_damage_parts [Box.mk 0 0 10 10] [] (1/10) =
      [MatchRec.mk 0 "Не определено" 0 (-1)] from rfl]
    exact List.mem_singleton_self _
  have h := c8_amended [Box.mk 0 0 10 10] [] (1/10) (by norm_num) _ hmem
  exact ⟨by norm_num, h.1, h.2.1⟩

theorem scratch_rates_pos (s : String) : 0 < scratch_rates s := by
  unfold scratch_rates
  split_ifs <;> norm_num

theorem scratch_material_multipliers_pos (m : String) :
    0 < scratch_material_multipliers m := by
  unfold scratch_material_multipliers
  split_ifs <;> norm_num

theorem missingCosts_nonneg {a : ℚ} (ha : 0 ≤ a) (d : DamageIn) :
    0 ≤ (missingCosts d a).1 ∧ 0 ≤ (missingCosts d a).2 := by
  have hrep : 0 ≤ pyInt (a * (scratch_rates (d.severity.getD "средний") : ℚ) *
      scratch_material_multipliers (missingDefaultMaterial (ruLower (d.part.getD "")))) := by
    apply pyInt_nonneg
    have b1 : (0:ℚ) < (scratch_rates (d.severity.getD "средний") : ℚ) := by
      exact_mod_cast scratch_rates_pos (d.severity.getD "средний")
    have b2 := scratch_material_multipliers_pos (missingDefaultMaterial (ruLower (d.part.getD "")))
    positivity
  have hdent : 0 ≤ (calculate_dent_repair_cost a
      (missingDefaultMaterial (ruLower (d.part.getD ""))) (d.severity.getD "средний")
      (d.damage_type.getD "вмятина")).1 :=
    calculate_dent_repair_cost_nonneg ha _ _ _
  have hdent2 : 0 ≤ pyInt (((calculate_dent_repair_cost a
      (missingDefaultMaterial (ruLower (d.part.getD ""))) (d.severity.getD "средний")
      (d.damage_type.getD "вмятина")).1 : ℚ) * (25/10)) :=
    pyInt_nonneg (mul_nonneg (by exact_mod_cast hdent) (by norm_num))
  simp only [missingCosts]
  split_ifs
  · exact ⟨hrep, by norm_num⟩
  · exact ⟨hrep, by norm_num⟩
  · exact ⟨hrep, by norm_num⟩
  · exact ⟨hrep, by norm_num⟩
  · exact ⟨hrep, le_trans (by norm_num) (le_max_right _ 10000)⟩
  · exact ⟨hdent, hdent2⟩

/-- C4: counterexample.  On the price-record branch the replacement cost is
the table price verbatim: with a table price of 12345 the produced record has
`replacement_cost = 12345`, which is not a multiple of 100, contradicting the
claimed universal rounding law. -/
theorem c4_counterexample :
    ((calculate_repair_cost (fun _ => 0) [PartRow.mk "дверь" 12345 "сталь" "10" ""]
        [DamageIn.mk (some "дверь") (some "вмятина") (some "средний") (some 60)
          none none none]).map (fun r => r.replacement_cost)) = [12345] ∧
    ¬ ((12345 : ℤ) % 100 = 0) := by
  have hrow : (([PartRow.mk "дверь" 12345 "сталь" "10" ""]).filter
      (fun r => r.detail == (DamageIn.mk (some "дверь") (some "вмятина") (some "средний")
        (some 60) none none none).part.getD "")).head? =
      some (PartRow.mk "дверь" 12345 "сталь" "10" "") := rfl
  constructor
  · rw [show calculate_repair_cost (fun _ => 0) [PartRow.mk "дверь" 12345 "сталь" "10" ""]
        [DamageIn.mk (some "дверь") (some "вмятина") (some "средний") (some 60)
          none none none] =
      [costOneDamage [PartRow.mk "дверь" 12345 "сталь" "10" ""] 0
        (DamageIn.mk (some "дверь") (some "вмятина") (some "средний") (some 60)
          none none none)] from rfl]
    rw [List.map_cons, List.map_nil, costOneDamage_eq_found hrow 0,
      costFoundBranch_replacement]
  · decide

/-- C4 (amended): every record from `calculate_repair_cost` satisfies — on
the estimated branch (no price record) both costs are non-negative multiples
of 100; on the price-record branch the replacement cost equals the matched
table row's price verbatim, and the repair cost is a multiple of 100 except
when it was capped at that verbatim price (heavy damage on magnesium alloy
or composite), in which case it equals the replacement cost. -/
theorem c4_amended (rands : ℕ → ℤ) (cp : List PartRow) (ds : List DamageIn)
    (rec : CostedDamage) (hrec : rec ∈ calculate_repair_cost rands cp ds) :
    (rec.estimated = true →
      0 ≤ rec.repair_cost ∧ rec.repair_cost % 100 = 0 ∧
      0 ≤ rec.replacement_cost ∧ rec.replacement_cost % 100 = 0) ∧
    (rec.estimated = false →
      (∃ row ∈ cp, rec.replacement_cost = row.price) ∧
      (rec.repair_cost % 100 = 0 ∨ rec.repair_cost = rec.replacement_cost)) := by
  obtain ⟨x, d, rfl⟩ := mem_calculate_repair_cost hrec
  rcases hrow : (cp.filter (fun q => q.detail == d.part.getD "")).head? with _ | row
  · rw [costOneDamage_eq_missing hrow]
    have hA0 : 0 ≤ max MIN_DAMAGE_AREA (min (d.area_cm2.getD (x:ℚ)) MAX_DAMAGE_AREA) :=
      le_trans (by rw [MIN_DAMAGE_AREA]; norm_num) (le_max_left _ _)
    constructor
    · intro _
      obtain ⟨hn1, hn2⟩ := missingCosts_nonneg hA0 d
      refine ⟨?_, ?_, ?_, ?_⟩
      · rw [costMissingBranch_repair]
        exact ceil100_nonneg (by exact_mod_cast hn1)
      · rw [costMissingBranch_repair]
        exact ceil100_emod _
      · rw [costMissingBranch_replacement]
        exact ceil100_nonneg (by exact_mod_cast hn2)
      · rw [costMissingBranch_replacement]
        exact ceil100_emod _
    · intro hfalse
      rw [costMissingBranch_estimated] at hfalse
      exact Bool.noConfusion hfalse
  · rw [costOneDamage_eq_found hrow x]
    constructor
    · intro htrue
      rw [costFoundBranch_estimated] at htrue
      exact Bool.noConfusion htrue
    · intro _
      have hrowmem : row ∈ cp := by
        have h1 : row ∈ cp.filter (fun q => q.detail == d.part.getD "") := by
          rcases hfil : cp.filter (fun q => q.detail == d.part.getD "") with _ | ⟨r0, t⟩
          · rw [hfil] at hrow
            exact Option.noConfusion hrow
          · rw [hfil] at hrow
            injection hrow with hr0
            rw [hfil, hr0]
            exact List.mem_cons_self _ _
        exact List.mem_of_mem_filter h1
      refine ⟨⟨row, hrowmem, costFoundBranch_replacement d _ row⟩, ?_⟩
      rw [costFoundBranch_repair, costFoundBranch_replacement]
      split_ifs with hcap
      · rcases le_total ((calculate_dent_repair_cost
            (max MIN_DAMAGE_AREA (min (d.area_cm2.getD (x:ℚ)) MAX_DAMAGE_AREA))
            row.material (d.severity.getD "средний") (d.damage_type.getD "вмятина")).1)
            row.price with hle | hle
        · left
          rw [min_eq_left hle]
          exact calculate_dent_repair_cost_emod _ _ _ _
        · right
          rw [min_eq_right hle]
      · left
        exact calculate_dent_repair_cost_emod _ _ _ _

/-- C4: witness at a concrete estimated-branch record. -/
theorem c4_witness :
    (costOneDamage [] 0 (DamageIn.mk (some "x") (some "вмятина") (some "средний")
      (some 60) none none none)).estimated = true ∧
    (costOneDamage [] 0 (DamageIn.mk (some "x") (some "вмятина") (some "средний")
      (some 60) none none none)).repair_cost % 100 = 0 ∧
    (costOneDamage [] 0 (DamageIn.mk (some "x") (some "вмятина") (some "средний")
      (some 60) none none none)).replacement_cost % 100 = 0 := by
  have hmem : costOneDamage [] 0 (DamageIn.mk (some "x") (some "вмятина") (some "средний")
      (some 60) none none none) ∈ calculate_repair_cost (fun _ => 0) []
      [DamageIn.mk (some "x") (some "вмятина") (some "средний") (some 60) none none none] := by
    rw [show calculate_repair_cost (fun _ => 0) []
      [DamageIn.mk (some "x") (some "вмятина") (some "средний") (some 60) none none none] =
      [costOneDamage [] 0 (DamageIn.mk (some "x") (some "вмятина") (some "средний")
        (some 60) none none none)] from rfl]
    exact List.mem_singleton_self _
  have h := c4_amended (fun _ => 0) []
    [DamageIn.mk (some "x") (some "вмятина") (some "средний") (some 60) none none none]
    _ hmem
  have hest : (costOneDamage [] 0 (DamageIn.mk (some "x") (some "вмятина") (some "средний")
      (some 60) none none none)).estimated = true := rfl
  exact ⟨hest, (h.1 hest).2.1, (h.1 hest).2.2.2⟩

/-- C5: for a damage whose part has no price record the computation does not
fail: the record is flagged `estimated = true` and its replacement cost is the
heuristic estimate rounded up to the nearest 100 — for scratches, bumper
15000, door 25000, fender 12000, headlight 8000 in that check order, else
`max(3 × repair, 10000)` on the pre-rounding repair estimate; for other
damage types `2.5 ×` the dent-model repair estimate. -/
theorem c5_estimated_fallback (cp : List PartRow) (x : ℤ) (d : DamageIn) (a : ℚ)
    (hnone : ∀ r ∈ cp, r.detail ≠ d.part.getD "") :
    (costOneDamage cp x d).estimated = true ∧
    (costOneDamage cp x d).replacement_cost =
      ceil100 ((missingCosts d (max MIN_DAMAGE_AREA
        (min (d.area_cm2.getD (x : ℚ)) MAX_DAMAGE_AREA))).2 : ℚ) ∧
    (costOneDamage cp x d).replacement_cost % 100 = 0 ∧
    (d.damage_type.getD "вмятина" = "царапина" →
      (strOccurs "бампер" (ruLower (d.part.getD "")) = true →
        (missingCosts d a).2 = 15000) ∧
      (strOccurs "бампер" (ruLower (d.part.getD "")) = false →
        strOccurs "дверь" (ruLower (d.part.getD "")) = true →
        (missingCosts d a).2 = 25000) ∧
      (strOccurs "бампер" (ruLower (d.part.getD "")) = false →
        strOccurs "дверь" (ruLower (d.part.getD "")) = false →
        strOccurs "крыло" (ruLower (d.part.getD "")) = true →
        (missingCosts d a).2 = 12000) ∧
      (strOccurs "бампер" (ruLower (d.part.getD "")) = false →
        strOccurs "дверь" (ruLower (d.part.getD "")) = false →
        strOccurs "крыло" (ruLower (d.part.getD "")) = false →
        strOccurs "фара" (ruLower (d.part.getD "")) = true →
        (missingCosts d a).2 = 8000) ∧
      (strOccurs "бампер" (ruLower (d.part.getD "")) = false →
        strOccurs "дверь" (ruLower (d.part.getD "")) = false →
        strOccurs "крыло" (ruLower (d.part.getD "")) = false →
        strOccurs "фара" (ruLower (d.part.getD "")) = false →
        (missingCosts d a).2 = max ((missingCosts d a).1 * 3) 10000)) ∧
    (d.damage_type.getD "вмятина" ≠ "царапина" →
      (missingCosts d a).1 = (calculate_dent_repair_cost a
        (missingDefaultMaterial (ruLower (d.part.getD ""))) (d.severity.getD "средний")
        (d.damage_type.getD "вмятина")).1 ∧
      (missingCosts d a).2 = pyInt (((missingCosts d a).1 : ℚ) * (25/10))) := by
  have hrow : (cp.filter (fun r => r.detail == d.part.getD "")).head? = none := by
    rw [List.filter_eq_nil_iff.mpr]
    · rfl
    · intro r hr
      simpa using hnone r hr
  refine ⟨?_, ?_, ?_, ?_, ?_⟩
  · rw [costOneDamage_eq_missing hrow]
    exact costMissingBranch_estimated d _
  · rw [costOneDamage_eq_missing hrow]
    exact costMissingBranch_replacement d _
  · rw [costOneDamage_eq_missing hrow, costMissingBranch_replacement]
    exact ceil100_emod _
  · intro hdt
    have h1 : missingCosts d a =
        (pyInt (a * (scratch_rates (d.severity.getD "средний") : ℚ) *
          scratch_material_multipliers (missingDefaultMaterial (ruLower (d.part.getD "")))),
         if strOccurs "бампер" (ruLower (d.part.getD "")) then 15000
         else if strOccurs "дверь" (ruLower (d.part.getD "")) then 25000
         else if strOccurs "крыло" (ruLower (d.part.getD "")) then 12000
         else if strOccurs "фара" (ruLower (d.part.getD "")) then 8000
         else max (pyInt (a * (scratch_rates (d.severity.getD "средний") : ℚ) *
           scratch_material_multipliers (missingDefaultMaterial
             (ruLower (d.part.getD "")))) * 3) 10000) := by
      simp only [missingCosts]
      rw [if_pos hdt]
    refine ⟨?_, ?_, ?_, ?_, ?_⟩
    · intro hb
      rw [h1]
      show (if strOccurs "бампер" (ruLower (d.part.getD "")) then (15000:ℤ) else _) = 15000
      rw [if_pos hb]
    · intro hb hd
      rw [h1]
      show (if strOccurs "бампер" (ruLower (d.part.getD "")) then (15000:ℤ) else _) = 25000
      rw [if_neg (by simp [hb]), if_pos hd]
    · intro hb hd hk
      rw [h1]
      show (if strOccurs "бампер" (ruLower (d.part.getD "")) then (15000:ℤ) else _) = 12000
      rw [if_neg (by simp [hb]), if_neg (by simp [hd]), if_pos hk]
    · intro hb hd hk hf
      rw [h1]
      show (if strOccurs "бампер" (ruLower (d.part.getD "")) then (15000:ℤ) else _) = 8000
      rw [if_neg (by simp [hb]), if_neg (by simp [hd]), if_neg (by simp [hk]), if_pos hf]
    · intro hb hd hk hf
      have hfst : (missingCosts d a).1 =
          pyInt (a * (scratch_rates (d.severity.getD "средний") : ℚ) *
            scratch_material_multipliers (missingDefaultMaterial (ruLower (d.part.getD "")))) := by
        rw [h1]
      rw [hfst, h1]
      show (if strOccurs "бампер" (ruLower (d.part.getD "")) then (15000:ℤ) else _) =
        max (pyInt (a * (scratch_rates (d.severity.getD "средний") : ℚ) *
          scratch_material_multipliers (missingDefaultMaterial (ruLower (d.part.getD "")))) * 3) 10000
      rw [if_neg (by simp [hb]), if_neg (by simp [hd]), if_neg (by simp [hk]),
        if_neg (by simp [hf])]
  · intro hdt
    have h1 : missingCosts d a =
        ((calculate_dent_repair_cost a (missingDefaultMaterial (ruLower (d.part.getD "")))
            (d.severity.getD "средний") (d.damage_type.getD "вмятина")).1,
         pyInt (((calculate_dent_repair_cost a (missingDefaultMaterial
             (ruLower (d.part.getD ""))) (d.severity.getD "средний")
             (d.damage_type.getD "вмятина")).1 : ℚ) * (25/10))) := by
      simp only [missingCosts]
      rw [if_neg hdt]
    rw [h1]
    exact ⟨rfl, rfl⟩

/-- C5: witness at the spec's Scenario 3 — a scratch on the front-left door
with no price record yields replacement cost 25000. -/
theorem c5_witness :
    (∀ r ∈ ([] : List PartRow), r.detail ≠ "дверь передняя левая") ∧
    (costOneDamage [] 0 (DamageIn.mk (some "дверь передняя левая") (some "царапина")
      (some "средний") (some 60) none none none)).estimated = true ∧
    (costOneDamage [] 0 (DamageIn.mk (some "дверь передняя левая") (some "царапина")
      (some "средний") (some 60) none none none)).replacement_cost = 25000 := by
  have h := c5_estimated_fallback [] 0
    (DamageIn.mk (some "дверь передняя левая") (some "царапина") (some "средний")
      (some 60) none none none)
    (max MIN_DAMAGE_AREA (min ((60:ℚ)) MAX_DAMAGE_AREA))
    (by intro r hr; exact absurd hr (List.not_mem_nil r))
  have hdt : (DamageIn.mk (some "дверь передняя левая") (some "царапина") (some "средний")
      (some 60) none none none).damage_type.getD "вмятина" = "царапина" := rfl
  have hb : strOccurs "бампер" (ruLower ((DamageIn.mk (some "дверь передняя левая")
      (some "царапина") (some "средний") (some 60) none none none).part.getD "")) = false := rfl
  have hd : strOccurs "дверь" (ruLower ((DamageIn.mk (some "дверь передняя левая")
      (some "царапина") (some "средний") (some 60) none none none).part.getD "")) = true := rfl
  have h25 := (h.2.2.2.1 hdt).2.1 hb hd
  refine ⟨fun r hr => absurd hr (List.not_mem_nil r), h.1, ?_⟩
  rw [h.2.1]
  rw [show (max MIN_DAMAGE_AREA (min ((DamageIn.mk (some "дверь передняя левая")
      (some "царапина") (some "средний") (some 60) none none none).area_cm2.getD ((0:ℤ) : ℚ))
      MAX_DAMAGE_AREA)) = max MIN_DAMAGE_AREA (min ((60:ℚ)) MAX_DAMAGE_AREA) from rfl]
  rw [h25]
  exact ceil100_int_emod_zero (by decide)

theorem eval_missing_dent_repair (rdraw : ℤ) (hA : max MIN_DAMAGE_AREA
      (min ((DamageIn.mk (some "x") (some "вмятина") (some "средний") none none none
        none).area_cm2.getD ((rdraw:ℤ) : ℚ)) MAX_DAMAGE_AREA) = 50) :
    (costOneDamage [] rdraw (DamageIn.mk (some "x") (some "вмятина") (some "средний")
      none none none none)).repair_cost = 6300 := by
  have hrow : (([] : List PartRow).filter (fun r => r.detail ==
      (DamageIn.mk (some "x") (some "вмятина") (some "средний") none none none
        none).part.getD "")).head? = none := rfl
  rw [costOneDamage_eq_missing hrow rdraw, hA, costMissingBranch_repair]
  have hmc : (missingCosts (DamageIn.mk (some "x") (some "вмятина") (some "средний")
      none none none none) 50).1 =
      (calculate_dent_repair_cost 50 "сталь" "средний" "вмятина").1 := by
    simp only [missingCosts]
    rw [if_neg (by decide)]
    rfl
  have hcd : calculate_dent_repair_cost 50 "сталь" "средний" "вмятина" = (6300, "сталь") := by
    rw [show calculate_dent_repair_cost 50 "сталь" "средний" "вмятина" =
      (ceil100 (50 * ((250:ℤ):ℚ) * 1 * (5/10)), "сталь") from rfl,
      @ceil100_eq (50 * ((250:ℤ):ℚ) * 1 * (5/10)) 63 (by norm_num) (by norm_num)]
    norm_num
  rw [hmc, hcd]
  exact ceil100_int_emod_zero (by decide)

theorem eval_missing_dent_repair100 (rdraw : ℤ) (hA : max MIN_DAMAGE_AREA
      (min ((DamageIn.mk (some "x") (some "вмятина") (some "средний") none none none
        none).area_cm2.getD ((rdraw:ℤ) : ℚ)) MAX_DAMAGE_AREA) = 100) :
    (costOneDamage [] rdraw (DamageIn.mk (some "x") (some "вмятина") (some "средний")
      none none none none)).repair_cost = 12500 := by
  have hrow : (([] : List PartRow).filter (fun r => r.detail ==
      (DamageIn.mk (some "x") (some "вмятина") (some "средний") none none none
        none).part.getD "")).head? = none := rfl
  rw [costOneDamage_eq_missing hrow rdraw, hA, costMissingBranch_repair]
  have hmc : (missingCosts (DamageIn.mk (some "x") (some "вмятина") (some "средний")
      none none none none) 100).1 =
      (calculate_dent_repair_cost 100 "сталь" "средний" "вмятина").1 := by
    simp only [missingCosts]
    rw [if_neg (by decide)]
    rfl
  have hcd : calculate_dent_repair_cost 100 "сталь" "средний" "вмятина" = (12500, "сталь") := by
    rw [show calculate_dent_repair_cost 100 "сталь" "средний" "вмятина" =
      (ceil100 (100 * ((250:ℤ):ℚ) * 1 * (5/10)), "сталь") from rfl,
      @ceil100_eq (100 * ((250:ℤ):ℚ) * 1 * (5/10)) 125 (by norm_num) (by norm_num)]
    norm_num
  rw [hmc, hcd]
  exact ceil100_int_emod_zero (by decide)

/-- C9: counterexample.  The cost computation is NOT a deterministic function
of the damage-analysis input: when a damage record omits `area_cm2`, the code
substitutes `random.randint(10, 100)`, so two invocations (modelled by two
PRNG oracles, drawing 10 and 100) produce records with different repair costs
(6300 vs 12500) on the very same input. -/
theorem c9_counterexample :
    ((calculate_repair_cost (fun _ => 10) [] [DamageIn.mk (some "x") (some "вмятина")
        (some "средний") none none none none]).map (fun r => r.repair_cost)) = [6300] ∧
    ((calculate_repair_cost (fun _ => 100) [] [DamageIn.mk (some "x") (some "вмятина")
        (some "средний") none none none none]).map (fun r => r.repair_cost)) = [12500] ∧
    calculate_repair_cost (fun _ => 10) [] [DamageIn.mk (some "x") (some "вмятина")
        (some "средний") none none none none] ≠
      calculate_repair_cost (fun _ => 100) [] [DamageIn.mk (some "x") (some "вмятина")
        (some "средний") none none none none] := by
  have hE1 : ((calculate_repair_cost (fun _ => 10) [] [DamageIn.mk (some "x")
      (some "вмятина") (some "средний") none none none none]).map
        (fun r => r.repair_cost)) = [6300] := by
    rw [show calculate_repair_cost (fun _ => 10) [] [DamageIn.mk (some "x") (some "вмятина")
        (some "средний") none none none none] =
      [costOneDamage [] 10 (DamageIn.mk (some "x") (some "вмятина") (some "средний")
        none none none none)] from rfl, List.map_cons, List.map_nil]
    rw [eval_missing_dent_repair 10 (by
      rw [show (DamageIn.mk (some "x") (some "вмятина") (some "средний") none none none
        none).area_cm2.getD (((10:ℤ)):ℚ) = ((10:ℤ):ℚ) from rfl, MIN_DAMAGE_AREA,
        MAX_DAMAGE_AREA]
      norm_num)]
  have hE2 : ((calculate_repair_cost (fun _ => 100) [] [DamageIn.mk (some "x")
      (some "вмятина") (some "средний") none none none none]).map
        (fun r => r.repair_cost)) = [12500] := by
    rw [show calculate_repair_cost (fun _ => 100) [] [DamageIn.mk (some "x") (some "вмятина")
        (some "средний") none none none none] =
      [costOneDamage [] 100 (DamageIn.mk (some "x") (some "вмятина") (some "средний")
        none none none none)] from rfl, List.map_cons, List.map_nil]
    rw [eval_missing_dent_repair100 100 (by
      rw [show (DamageIn.mk (some "x") (some "вмятина") (some "средний") none none none
        none).area_cm2.getD (((100:ℤ)):ℚ) = ((100:ℤ):ℚ) from rfl, MIN_DAMAGE_AREA,
        MAX_DAMAGE_AREA]
      norm_num)]
  refine ⟨hE1, hE2, fun heq => ?_⟩
  rw [heq] at hE1
  exact absurd (hE1.symm.trans hE2) (by decide)

/-- C9 (amended): the matcher, cost model and recommendation engine are pure
Lean functions of their explicit inputs, and the cost computation is
deterministic across two invocations with different PRNG oracles whenever
every damage record carries an `area_cm2` field — the PRNG draw is consulted
only as the default for a missing `area_cm2`. -/
theorem c9_amended (carParts : List PartRow) (damages : List DamageIn)
    (hareas : ∀ d ∈ damages, d.area_cm2.isSome = true) (r1 r2 : ℕ → ℤ) :
    calculate_repair_cost r1 carParts damages = calculate_repair_cost r2 carParts damages := by
  unfold calculate_repair_cost
  apply List.map_congr_left
  intro p hp
  have hd : p.2 ∈ damages := by
    obtain ⟨i, a⟩ := p
    obtain ⟨-, -, h3⟩ := List.mem_enumFrom hp
    rw [h3]
    exact List.getElem_mem _
  obtain ⟨a, ha⟩ := Option.isSome_iff_exists.mp (hareas p.2 hd)
  exact costOneDamage_rand_irrelevant ha carParts (r1 p.1) (r2 p.1)

/-- C9: witness on a one-damage list carrying an explicit area. -/
theorem c9_witness :
    (∀ d ∈ [DamageIn.mk (some "x") (some "вмятина") (some "средний") (some 60)
      none none none], d.area_cm2.isSome = true) ∧
    calculate_repair_cost (fun _ => 10) [] [DamageIn.mk (some "x") (some "вмятина")
        (some "средний") (some 60) none none none] =
      calculate_repair_cost (fun _ => 100) [] [DamageIn.mk (some "x") (some "вмятина")
        (some "средний") (some 60) none none none] := by
  have hareas : ∀ d ∈ [DamageIn.mk (some "x") (some "вмятина") (some "средний") (some 60)
      none none none], d.area_cm2.isSome = true := by
    intro d hd
    rw [List.mem_singleton.mp hd]
    rfl
  exact ⟨hareas, c9_amended [] _ hareas (fun _ => 10) (fun _ => 100)⟩

theorem recommendFor_iff (r p : ℤ) :
    ((recommendFor r p).1 = "ремонт" ↔ (r : ℚ) < 7/10 * (p : ℚ)) ∧
    ((recommendFor r p).1 = "ремонт" → (recommendFor r p).2 = p - r) ∧
    ((recommendFor r p).1 ≠ "ремонт" →
      (recommendFor r p).1 = "замена" ∧ (recommendFor r p).2 = 0) := by
  unfold recommendFor
  split_ifs with h
  · refine ⟨⟨fun _ => by linarith [h], fun _ => rfl⟩, fun _ => rfl, fun hc => absurd rfl hc⟩
  · refine ⟨⟨fun hc => absurd hc (by decide), fun hlt => absurd (by linarith : (r:ℚ) < (p:ℚ) * (7/10)) h⟩, fun hc => absurd hc (by decide), fun _ => ⟨rfl, rfl⟩⟩

/-- C3: the per-damage recommendation rule is "repair" iff
`repair_cost < 0.7 × replacement_cost` with savings `replacement − repair`
on repair and 0 otherwise; every record produced by `calculate_repair_cost`
carries exactly this rule applied to its own costs; and the aggregate uses
plain sums with overall decision "repair" iff
`total_repair < total_replacement` (strict, no 0.7 margin). -/
theorem c3_recommendation_law (r p : ℤ) (_hr : 0 ≤ r) (_hp : 0 ≤ p)
    (rands : ℕ → ℤ) (cp : List PartRow) (ds : List DamageIn) (rec : CostedDamage)
    (hrec : rec ∈ calculate_repair_cost rands cp ds) (records : List CostedDamage) :
    ((recommendFor r p).1 = "ремонт" ↔ (r : ℚ) < 7/10 * (p : ℚ)) ∧
    ((recommendFor r p).1 = "ремонт" → (recommendFor r p).2 = p - r) ∧
    ((recommendFor r p).1 ≠ "ремонт" →
      (recommendFor r p).1 = "замена" ∧ (recommendFor r p).2 = 0) ∧
    (rec.recommendation, rec.savings) = recommendFor rec.repair_cost rec.replacement_cost ∧
    total_repair_cost records = (records.map (fun x => x.repair_cost)).sum ∧
    total_replacement_cost records = (records.map (fun x => x.replacement_cost)).sum ∧
    (finalRecommendation records = "ремонт" ↔
      total_repair_cost records < total_replacement_cost records) := by
  obtain ⟨hiff, hrep, hrepl⟩ := recommendFor_iff r p
  refine ⟨hiff, hrep, hrepl, ?_, rfl, rfl, ?_⟩
  · obtain ⟨x, d, rfl⟩ := mem_calculate_repair_cost hrec
    rcases hrow : (cp.filter (fun q => q.detail == d.part.getD "")).head? with _ | row
    · rw [costOneDamage_eq_missing hrow]
      exact costMissingBranch_recommend d _
    · rw [costOneDamage_eq_found hrow]
      exact costFoundBranch_recommend d _ row
  · unfold finalRecommendation
    split_ifs with h
    · exact ⟨fun _ => h, fun _ => rfl⟩
    · exact ⟨fun hc => absurd hc (by decide), fun hlt => absurd hlt h⟩

/-- C3: witness at the spec's Scenario 4 (5000 vs 20000 → repair, savings
15000), with a concrete one-damage pipeline record. -/
theorem c3_witness :
    0 ≤ (5000 : ℤ) ∧ 0 ≤ (20000 : ℤ) ∧
    (recommendFor 5000 20000).1 = "ремонт" ∧ (recommendFor 5000 20000).2 = 15000 := by
  have hmem : costOneDamage [] 0 (DamageIn.mk (some "x") (some "вмятина") (some "средний")
      (some 60) none none none) ∈ calculate_repair_cost (fun _ => 0) []
      [DamageIn.mk (some "x") (some "вмятина") (some "средний") (some 60) none none none] := by
    rw [show calculate_repair_cost (fun _ => 0) []
      [DamageIn.mk (some "x") (some "вмятина") (some "средний") (some 60) none none none] =
      [costOneDamage [] 0 (DamageIn.mk (some "x") (some "вмятина") (some "средний")
        (some 60) none none none)] from rfl]
    exact List.mem_singleton_self _
  have h := c3_recommendation_law 5000 20000 (by decide) (by decide) (fun _ => 0) []
    [DamageIn.mk (some "x") (some "вмятина") (some "средний") (some 60) none none none]
    _ hmem []
  have h1 : (recommendFor 5000 20000).1 = "ремонт" := h.1.mpr (by norm_num)
  refine ⟨by decide, by decide, h1, ?_⟩
  have h2 := h.2.1 h1
  rw [h2]
  decide
